import Mathlib

/-!
# Verification of the lender policy evaluation and matching engine

A shallow embedding, in Lean 4, of the core matching engine of the
`kaaj-mvp` backend: the evaluation context, the criterion rules
(`app/rules/criteria/*.py`), the rule registry (`app/rules/registry.py`),
the matching engine (`app/rules/engine.py`) and the matching service
(`app/services/matching_service.py`), together with theorems settling the
behavioural claims of the specification.

Conventions of the embedding:
* Python `float` scores are modelled as `ℚ` (all score arithmetic in the
  source is decimal arithmetic on small values; currency amounts are
  integer minor units throughout, as the data model requires).
* Python `int` values are modelled as `ℤ`, `Optional[T]` as `Option T`.
* A Python function that can raise (`RuleRegistry.get_rule` raises
  `KeyError` for an unregistered key, and callers do not catch it) is
  modelled in `Except String`; the error value is the exception message.
* Loosely-typed criteria dicts (`dict[str, Any]`) are modelled by the
  structure `CriteriaDict`, one optional field per key actually read by
  some rule; an absent key is `none` / `[]`.
-/

set_option linter.unusedVariables false
set_option maxRecDepth 16000

/-! ## String helpers (Python `str.upper`, `str.lower`, `str.title`, `in`) -/

/-- Python `str.upper()` (ASCII usage: state codes, category names). -/
def strUpper (s : String) : String := String.mk (s.data.map Char.toUpper)

/-- Python `str.lower()`. -/
def strLower (s : String) : String := String.mk (s.data.map Char.toLower)

/-- Helper for `strTitle`: the Boolean argument records whether the previous
character was alphabetic. -/
def titleAux : Bool → List Char → List Char
  | _, [] => []
  | prevAlpha, c :: cs =>
    (if c.isAlpha then (if prevAlpha then c.toLower else c.toUpper) else c)
      :: titleAux c.isAlpha cs

/-- Python `str.title()`. -/
def strTitle (s : String) : String := String.mk (titleAux false s.data)

/-- Contiguous-sublist containment on lists (needle first). -/
def listContainsSublist {α : Type} [DecidableEq α] : List α → List α → Bool
  | needle, [] => needle.isEmpty
  | needle, h :: t => needle.isPrefixOf (h :: t) || listContainsSublist needle t

/-- Python `needle in haystack` on strings (substring containment). -/
def strContains (needle haystack : String) : Bool :=
  listContainsSublist needle.data haystack.data

/-- Python `s.replace("_", " ")` as used by `_format_transaction_type`. -/
def replaceUnderscores (s : String) : String :=
  String.mk (s.data.map (fun c => if c = '_' then ' ' else c))

/-! ## Currency formatting (`f"${cents/100:,.0f}"`) -/

/-- Group a reversed digit list into chunks of three (for comma grouping). -/
def chunk3 : List Char → List (List Char)
  | [] => []
  | [a] => [[a]]
  | [a, b] => [[a, b]]
  | [a, b, c] => [[a, b, c]]
  | a :: b :: c :: d :: rest => [a, b, c] :: chunk3 (d :: rest)

/-- Decimal representation of a natural number with thousands separators. -/
def natWithCommas (n : Nat) : String :=
  String.mk ((List.intercalate [','] (chunk3 (Nat.repr n).data.reverse)).reverse)

/-- Decimal representation of an integer with thousands separators. -/
def intWithCommas (n : Int) : String :=
  if n < 0 then "-" ++ natWithCommas n.natAbs else natWithCommas n.natAbs

/-- Round-half-to-even on rationals, the rounding used by Python's
`format(x, ',.0f')`. -/
def roundHalfEven (q : ℚ) : ℤ :=
  let f := ⌊q⌋
  let r := q - f
  if r < 1/2 then f
  else if 1/2 < r then f + 1
  else if f % 2 = 0 then f else f + 1

/-- Round-half-to-even of `cents / 100`, computed on integers: `fdiv`/`fmod`
are floor division, so this is exactly `roundHalfEven` applied to the exact
rational `cents / 100`. -/
def roundHalfEvenCents (cents : ℤ) : ℤ :=
  let f := cents.fdiv 100
  let r := cents.fmod 100
  if r < 50 then f
  else if 50 < r then f + 1
  else if f % 2 = 0 then f else f + 1

/-- `f"${cents/100:,.0f}"`: minor units to a comma-grouped dollar string. -/
def formatDollars (cents : ℤ) : String :=
  "$" ++ intWithCommas (roundHalfEvenCents cents)

/-! ## RuleResult (`app/rules/base.py`) -/

/-- One failing sub-check, as stored in the `details` map of the business
requirements rule (`failed_checks` entries). -/
structure FailedCheckInfo where
  check : String
  required : String
  actual : String
  message : String
  deriving DecidableEq, Repr

/-- The structured `details` payload of a `RuleResult`. Only the business
requirements rule populates it. -/
inductive RuleDetails where
  | business (failed_checks : List FailedCheckInfo) (passed_checks : List String)
  deriving DecidableEq, Repr

/-- `RuleResult` dataclass. Constructed only through `RuleResult.make`,
which performs the `__post_init__` clamping. -/
structure RuleResult where
  passed : Bool
  rule_name : String
  required_value : String
  actual_value : String
  message : String
  score : ℚ
  details : Option RuleDetails
  deriving DecidableEq, Repr

/-- `RuleResult(...)` including `__post_init__`: the score is clamped
into `[0, 100]` at construction. -/
def RuleResult.make (passed : Bool) (rule_name required_value actual_value message : String)
    (score : ℚ) (details : Option RuleDetails) : RuleResult :=
  { passed := passed
    rule_name := rule_name
    required_value := required_value
    actual_value := actual_value
    message := message
    score := if score < 0 then 0 else if score > 100 then 100 else score
    details := details }

/-- `Rule._create_passed_result` (default score 100 is passed explicitly
at each call site of the embedding). -/
def Rule.createPassedResult (rule_name required_value actual_value message : String)
    (score : ℚ) (details : Option RuleDetails) : RuleResult :=
  RuleResult.make true rule_name required_value actual_value message score details

/-- `Rule._create_failed_result`: always score 0. -/
def Rule.createFailedResult (rule_name required_value actual_value message : String)
    (details : Option RuleDetails) : RuleResult :=
  RuleResult.make false rule_name required_value actual_value message 0 details

/-! ## EvaluationContext (`app/rules/base.py`) -/

/-- The flat, immutable evaluation context, with the dataclass defaults. -/
structure EvaluationContext where
  application_id : String
  fico_score : Option ℤ := none
  transunion_score : Option ℤ := none
  experian_score : Option ℤ := none
  equifax_score : Option ℤ := none
  paynet_score : Option ℤ := none
  paynet_master_score : Option ℤ := none
  paydex_score : Option ℤ := none
  business_name : String := ""
  years_in_business : ℚ := 0
  industry_code : String := ""
  industry_name : String := ""
  state : String := ""
  annual_revenue : Option ℤ := none
  fleet_size : Option ℤ := none
  is_homeowner : Bool := false
  is_us_citizen : Bool := true
  has_cdl : Bool := false
  cdl_years : Option ℤ := none
  industry_experience_years : Option ℤ := none
  has_bankruptcy : Bool := false
  bankruptcy_discharge_years : Option ℚ := none
  bankruptcy_chapter : Option String := none
  has_open_judgements : Bool := false
  judgement_amount : Option ℤ := none
  has_foreclosure : Bool := false
  has_repossession : Bool := false
  has_tax_liens : Bool := false
  tax_lien_amount : Option ℤ := none
  loan_amount : ℤ := 0
  requested_term_months : Option ℤ := none
  down_payment_percent : Option ℚ := none
  transaction_type : String := "purchase"
  is_private_party : Bool := false
  equipment_category : String := ""
  equipment_type : String := ""
  equipment_year : ℤ := 0
  equipment_age_years : ℤ := 0
  equipment_mileage : Option ℤ := none
  equipment_hours : Option ℤ := none
  equipment_condition : String := "used"
  deriving DecidableEq, Repr

/-- `EvaluationContext.get_credit_score`: dictionary lookup over the five
named scales; an unknown score type yields `None`. -/
def EvaluationContext.get_credit_score (ctx : EvaluationContext) (score_type : String) :
    Option ℤ :=
  match strLower score_type with
  | "fico" => ctx.fico_score
  | "transunion" => ctx.transunion_score
  | "experian" => ctx.experian_score
  | "equifax" => ctx.equifax_score
  | "paynet" => ctx.paynet_score
  | _ => none

/-- `EvaluationContext.is_trucking`. -/
def EvaluationContext.is_trucking (ctx : EvaluationContext) : Bool :=
  strLower ctx.equipment_category ∈
    ["class_8_truck", "trailer", "semi", "truck"]

/-- `EvaluationContext.is_startup`. -/
def EvaluationContext.is_startup (ctx : EvaluationContext) : Bool :=
  ctx.years_in_business < 2

/-! ## The loosely-typed criteria dict -/

/-- The `requires_cdl` value: a Python `bool` or the string `"conditional"`. -/
inductive CdlRequirement where
  | flag (b : Bool)
  | conditional
  deriving DecidableEq, Repr

/-- The `dict[str, Any]` criteria bag handed to `Rule.evaluate`. One field
for each key read by some rule; `none` / `[]` means the key is absent. -/
structure CriteriaDict where
  type : Option String := none
  min : Option ℤ := none
  min_time_in_business_years : Option ℚ := none
  requires_homeowner : Option Bool := none
  requires_cdl : Option CdlRequirement := none
  min_cdl_years : Option ℤ := none
  min_industry_experience_years : Option ℤ := none
  min_fleet_size : Option ℤ := none
  min_annual_revenue : Option ℤ := none
  max_bankruptcies : Option ℤ := none
  bankruptcy_min_discharge_years : Option ℚ := none
  max_open_judgements : Option ℤ := none
  allows_foreclosure : Option Bool := none
  allows_repossession : Option Bool := none
  max_tax_liens : Option ℤ := none
  max_age_years : Option ℤ := none
  max_mileage : Option ℤ := none
  min_amount : Option ℤ := none
  max_amount : Option ℤ := none
  excluded_states : List String := []
  allowed_states : List String := []
  excluded_industries : List String := []
  allowed_industries : List String := []
  purchase : Option Bool := none
  refinance : Option Bool := none
  sale_leaseback : Option Bool := none
  private_party : Option Bool := none
  deriving DecidableEq, Repr

/-! ## Credit score rule (`app/rules/criteria/credit_score.py`) -/

/-- `CreditScoreRule._calculate_bonus_score`:
`70 + min(30, (actual - min) * 0.3)`. -/
def CreditScoreRule.calculate_bonus_score (actual_score min_score : ℤ) : ℚ :=
  let excess : ℚ := ((actual_score - min_score : ℤ) : ℚ)
  let bonus := min 30 (excess * (3/10))
  70 + bonus

/-- `CreditScoreRule._build_rule_name`. -/
def CreditScoreRule.build_rule_name (score_type : String) : String :=
  "Minimum " ++ strTitle score_type ++ " Score"

/-- `CreditScoreRule.evaluate`. -/
def CreditScoreRule.evaluate (ctx : EvaluationContext) (criteria : CriteriaDict) :
    RuleResult :=
  let score_type := criteria.type.getD "fico"
  let min_score := criteria.min.getD 0
  let rule_name := CreditScoreRule.build_rule_name score_type
  match ctx.get_credit_score score_type with
  | none =>
    Rule.createFailedResult rule_name (toString min_score) "Not provided"
      (strTitle score_type ++ " credit score not provided") none
  | some actual_score =>
    if actual_score ≥ min_score then
      Rule.createPassedResult rule_name (toString min_score) (toString actual_score)
        (strTitle score_type ++ " credit score " ++ toString actual_score ++
          " meets minimum " ++ toString min_score)
        (CreditScoreRule.calculate_bonus_score actual_score min_score) none
    else
      Rule.createFailedResult rule_name (toString min_score) (toString actual_score)
        (strTitle score_type ++ " credit score " ++ toString actual_score ++
          " below minimum " ++ toString min_score) none

/-! ## Geographic rule (`app/rules/criteria/geographic.py`) -/

/-- `StateRestrictionRule._check_excluded_states`. -/
def StateRestrictionRule.check_excluded_states (state : String)
    (excluded_states : List String) : Option RuleResult :=
  if excluded_states = [] then none
  else
    let excluded_upper := excluded_states.map strUpper
    if state ∈ excluded_upper then
      some (Rule.createFailedResult "State Restriction"
        ("Not in " ++ String.intercalate ", " excluded_upper) state
        ("State " ++ state ++ " is excluded from this program") none)
    else none

/-- `StateRestrictionRule._check_allowed_states`. -/
def StateRestrictionRule.check_allowed_states (state : String)
    (allowed_states : List String) : Option RuleResult :=
  if allowed_states = [] then none
  else
    let allowed_upper := allowed_states.map strUpper
    if state ∉ allowed_upper then
      some (Rule.createFailedResult "State Restriction"
        ("One of " ++ String.intercalate ", " allowed_upper) state
        ("State " ++ state ++ " is not in the allowed states list") none)
    else none

/-- `StateRestrictionRule.evaluate`. -/
def StateRestrictionRule.evaluate (ctx : EvaluationContext) (criteria : CriteriaDict) :
    RuleResult :=
  let state := strUpper ctx.state
  match StateRestrictionRule.check_excluded_states state criteria.excluded_states with
  | some r => r
  | none =>
    match StateRestrictionRule.check_allowed_states state criteria.allowed_states with
    | some r => r
    | none =>
      Rule.createPassedResult "State Restriction" "Allowed state" state
        ("State " ++ state ++ " is allowed") 100 none

/-! ## Industry rule (`app/rules/criteria/industry.py`) -/

/-- `IndustryExclusionRule._matches_any`. -/
def IndustryExclusionRule.matches_any (industry_code industry_name : String)
    (patterns : List String) : Bool :=
  patterns.any (fun pattern =>
    strContains pattern industry_code || strContains pattern industry_name)

/-- `IndustryExclusionRule._check_excluded_industries`. -/
def IndustryExclusionRule.check_excluded_industries
    (industry_code industry_name original_name : String)
    (excluded_industries : List String) : Option RuleResult :=
  if excluded_industries = [] then none
  else
    let excluded_lower := excluded_industries.map strLower
    if IndustryExclusionRule.matches_any industry_code industry_name excluded_lower then
      some (Rule.createFailedResult "Industry Restriction"
        "Not in excluded industries" original_name
        ("Industry '" ++ original_name ++ "' is excluded from this program") none)
    else none

/-- `IndustryExclusionRule._check_allowed_industries`. -/
def IndustryExclusionRule.check_allowed_industries
    (industry_code industry_name original_name : String)
    (allowed_industries : List String) : Option RuleResult :=
  if allowed_industries = [] then none
  else
    let allowed_lower := allowed_industries.map strLower
    if ¬ IndustryExclusionRule.matches_any industry_code industry_name allowed_lower then
      some (Rule.createFailedResult "Industry Restriction"
        ("One of: " ++ String.intercalate ", " allowed_industries) original_name
        ("Industry '" ++ original_name ++ "' is not in the allowed list") none)
    else none

/-- `IndustryExclusionRule.evaluate`. -/
def IndustryExclusionRule.evaluate (ctx : EvaluationContext) (criteria : CriteriaDict) :
    RuleResult :=
  let industry_code := strLower ctx.industry_code
  let industry_name := strLower ctx.industry_name
  let original_name := ctx.industry_name
  match IndustryExclusionRule.check_excluded_industries industry_code industry_name
      original_name criteria.excluded_industries with
  | some r => r
  | none =>
    match IndustryExclusionRule.check_allowed_industries industry_code industry_name
        original_name criteria.allowed_industries with
    | some r => r
    | none =>
      Rule.createPassedResult "Industry Restriction" "Allowed industry" original_name
        ("Industry '" ++ original_name ++ "' is allowed") 100 none

/-! ## Transaction rule (`app/rules/criteria/transaction.py`) -/

/-- `TransactionTypeRule._format_transaction_type`. -/
def TransactionTypeRule.format_transaction_type (transaction_type : String) : String :=
  strTitle (replaceUnderscores transaction_type)

/-- `TransactionTypeRule._check_transaction_type`: the allowed-types map has
exactly the keys `purchase`, `refinance`, `sale_leaseback` (default `True`). -/
def TransactionTypeRule.check_transaction_type (transaction_type : String)
    (criteria : CriteriaDict) : Option RuleResult :=
  let formatted_type := TransactionTypeRule.format_transaction_type transaction_type
  if transaction_type ∉ ["purchase", "refinance", "sale_leaseback"] then
    some (Rule.createFailedResult "Transaction Type" "Valid transaction type"
      transaction_type ("Unknown transaction type: " ++ transaction_type) none)
  else
    let allowed :=
      if transaction_type = "purchase" then criteria.purchase.getD true
      else if transaction_type = "refinance" then criteria.refinance.getD true
      else criteria.sale_leaseback.getD true
    if ¬ allowed then
      some (Rule.createFailedResult "Transaction Type" "Allowed transaction type"
        formatted_type (formatted_type ++ " transactions not allowed") none)
    else none

/-- `TransactionTypeRule._check_private_party`. -/
def TransactionTypeRule.check_private_party (is_private_party : Bool)
    (criteria : CriteriaDict) : Option RuleResult :=
  if ¬ is_private_party then none
  else if ¬ criteria.private_party.getD true then
    some (Rule.createFailedResult "Private Party Restriction"
      "Not private party sale" "Private party sale"
      "Private party sales are not allowed" none)
  else none

/-- `TransactionTypeRule.evaluate`. -/
def TransactionTypeRule.evaluate (ctx : EvaluationContext) (criteria : CriteriaDict) :
    RuleResult :=
  let transaction_type := strLower ctx.transaction_type
  match TransactionTypeRule.check_transaction_type transaction_type criteria with
  | some r => r
  | none =>
    match TransactionTypeRule.check_private_party ctx.is_private_party criteria with
    | some r => r
    | none =>
      Rule.createPassedResult "Transaction Type" "Valid transaction"
        (TransactionTypeRule.format_transaction_type transaction_type)
        (TransactionTypeRule.format_transaction_type transaction_type ++
          " transaction is allowed") 100 none

/-! ## Loan amount rule (`app/rules/criteria/loan_amount.py`) -/

/-- `LoanAmountRule._check_minimum`. -/
def LoanAmountRule.check_minimum (loan_amount : ℤ) (min_amount : Option ℤ) :
    Option RuleResult :=
  match min_amount with
  | none => none
  | some m =>
    if loan_amount ≥ m then none
    else
      some (Rule.createFailedResult "Minimum Loan Amount"
        (formatDollars m) (formatDollars loan_amount)
        ("Loan amount " ++ formatDollars loan_amount ++ " below minimum " ++
          formatDollars m) none)

/-- `LoanAmountRule._check_maximum`. -/
def LoanAmountRule.check_maximum (loan_amount : ℤ) (max_amount : Option ℤ) :
    Option RuleResult :=
  match max_amount with
  | none => none
  | some m =>
    if loan_amount ≤ m then none
    else
      some (Rule.createFailedResult "Maximum Loan Amount"
        (formatDollars m) (formatDollars loan_amount)
        ("Loan amount " ++ formatDollars loan_amount ++ " exceeds maximum " ++
          formatDollars m) none)

/-- `LoanAmountRule._build_range_string`. -/
def LoanAmountRule.build_range_string (min_amount max_amount : Option ℤ) : String :=
  (match min_amount with
   | some m => formatDollars m
   | none => "$0") ++ " - " ++
  (match max_amount with
   | some m => formatDollars m
   | none => "unlimited")

/-- `LoanAmountRule.evaluate`. -/
def LoanAmountRule.evaluate (ctx : EvaluationContext) (criteria : CriteriaDict) :
    RuleResult :=
  let loan_amount := ctx.loan_amount
  match LoanAmountRule.check_minimum loan_amount criteria.min_amount with
  | some r => r
  | none =>
    match LoanAmountRule.check_maximum loan_amount criteria.max_amount with
    | some r => r
    | none =>
      Rule.createPassedResult "Loan Amount"
        (LoanAmountRule.build_range_string criteria.min_amount criteria.max_amount)
        (formatDollars loan_amount)
        ("Loan amount " ++ formatDollars loan_amount ++ " within allowed range")
        100 none

/-! ## Business requirements rule (`app/rules/criteria/business.py`) -/

/-- Python `f"{q:.1f}"`: one decimal place, rounding half to even. -/
def formatOneDecimal (q : ℚ) : String :=
  let t := roundHalfEven (q * 10)
  let sign := if t < 0 then "-" else ""
  sign ++ toString (t.natAbs / 10) ++ "." ++ toString (t.natAbs % 10)

/-- Python `str(x)` for a float holding a finite decimal value: the shortest
decimal expansion, with at least one digit after the point. -/
def floatRepr (q : ℚ) : String :=
  match (List.range 18).find? (fun k => (q * (10 : ℚ) ^ k).den = 1) with
  | some 0 => toString q.num ++ ".0"
  | some (k + 1) =>
    let t := (q * (10 : ℚ) ^ (k + 1)).num
    let sign := if t < 0 then "-" else ""
    let frac := toString (t.natAbs % 10 ^ (k + 1))
    sign ++ toString (t.natAbs / 10 ^ (k + 1)) ++ "." ++
      String.mk (List.replicate (k + 1 - frac.length) '0') ++ frac
  | none => toString q.num ++ "/" ++ toString q.den

/-- Python truthiness of an `Optional[int]`: `None` and `0` are falsy. -/
def pyTruthyInt (o : Option ℤ) : Bool :=
  match o with
  | some v => v ≠ 0
  | none => false

/-- `CheckResult` dataclass of the business requirements rule. -/
structure CheckResult where
  passed : Bool
  score : ℚ := 0
  max_score : ℚ := 0
  message : String := ""
  check_name : String := ""
  required : String := ""
  actual : String := ""
  deriving DecidableEq, Repr

/-- `AggregatedChecks` dataclass. -/
structure AggregatedChecks where
  failed_checks : List FailedCheckInfo := []
  passed_checks : List String := []
  total_score : ℚ := 0
  max_possible : ℚ := 0
  deriving DecidableEq, Repr

/-- `AggregatedChecks.add_result`. -/
def AggregatedChecks.add_result (agg : AggregatedChecks) (r : CheckResult) :
    AggregatedChecks :=
  { failed_checks := agg.failed_checks ++
      (if r.passed then [] else [⟨r.check_name, r.required, r.actual, r.message⟩])
    passed_checks := agg.passed_checks ++ (if r.passed then [r.message] else [])
    total_score := agg.total_score + (if r.passed then r.score else 0)
    max_possible := agg.max_possible + r.max_score }

/-- `BusinessRequirementsRule._check_time_in_business`: a passing check earns
only the bonus `min(25, (years - min) * 5)` out of a `max_score` of 25. -/
def BusinessRequirementsRule.check_time_in_business (ctx : EvaluationContext)
    (min_tib : ℚ) : CheckResult :=
  if ctx.years_in_business ≥ min_tib then
    { passed := true
      score := min 25 ((ctx.years_in_business - min_tib) * 5)
      max_score := 25
      message := "Time in business " ++ formatOneDecimal ctx.years_in_business ++
        " years meets minimum " ++ floatRepr min_tib ++ " years" }
  else
    { passed := false
      max_score := 25
      check_name := "Time in Business"
      required := floatRepr min_tib ++ " years"
      actual := formatOneDecimal ctx.years_in_business ++ " years"
      message := "Time in business " ++ formatOneDecimal ctx.years_in_business ++
        " years below minimum " ++ floatRepr min_tib ++ " years" }

/-- `BusinessRequirementsRule._check_homeowner`. -/
def BusinessRequirementsRule.check_homeowner (ctx : EvaluationContext) : CheckResult :=
  if ctx.is_homeowner then
    { passed := true, score := 15, max_score := 15
      message := "Homeowner requirement met" }
  else
    { passed := false, max_score := 15, check_name := "Homeownership"
      required := "Must be homeowner", actual := "Not a homeowner"
      message := "Applicant is not a homeowner (required)" }

/-- `BusinessRequirementsRule._check_cdl`. -/
def BusinessRequirementsRule.check_cdl (ctx : EvaluationContext) : CheckResult :=
  if ctx.has_cdl then
    { passed := true, score := 10, max_score := 10
      message := "CDL requirement met" }
  else
    { passed := false, max_score := 10, check_name := "CDL License"
      required := "Must have CDL", actual := "No CDL"
      message := "CDL license required but not held" }

/-- `BusinessRequirementsRule._check_cdl_years` (note the Python truthiness
of `context.cdl_years`: a stored `0` behaves like an absent value). -/
def BusinessRequirementsRule.check_cdl_years (ctx : EvaluationContext)
    (min_cdl_years : ℤ) : CheckResult :=
  if pyTruthyInt ctx.cdl_years ∧ ctx.cdl_years.getD 0 ≥ min_cdl_years then
    { passed := true, score := 15, max_score := 15
      message := "CDL experience " ++ toString (ctx.cdl_years.getD 0) ++
        " years meets minimum " ++ toString min_cdl_years ++ " years" }
  else
    let actual := if pyTruthyInt ctx.cdl_years then
        toString (ctx.cdl_years.getD 0) ++ " years" else "No CDL"
    { passed := false, max_score := 15, check_name := "CDL Experience"
      required := toString min_cdl_years ++ " years", actual := actual
      message := "CDL experience " ++ actual ++ " below minimum " ++
        toString min_cdl_years ++ " years" }

/-- `BusinessRequirementsRule._check_industry_experience`. -/
def BusinessRequirementsRule.check_industry_experience (ctx : EvaluationContext)
    (min_exp : ℤ) : CheckResult :=
  if pyTruthyInt ctx.industry_experience_years ∧
      ctx.industry_experience_years.getD 0 ≥ min_exp then
    { passed := true, score := 15, max_score := 15
      message := "Industry experience " ++ toString (ctx.industry_experience_years.getD 0) ++
        " years meets minimum " ++ toString min_exp ++ " years" }
  else
    let actual := if pyTruthyInt ctx.industry_experience_years then
        toString (ctx.industry_experience_years.getD 0) ++ " years" else "Not provided"
    { passed := false, max_score := 15, check_name := "Industry Experience"
      required := toString min_exp ++ " years", actual := actual
      message := "Industry experience " ++ actual ++ " below minimum " ++
        toString min_exp ++ " years" }

/-- `BusinessRequirementsRule._check_fleet_size`. -/
def BusinessRequirementsRule.check_fleet_size (ctx : EvaluationContext)
    (min_fleet : ℤ) : CheckResult :=
  if pyTruthyInt ctx.fleet_size ∧ ctx.fleet_size.getD 0 ≥ min_fleet then
    { passed := true, score := 10, max_score := 10
      message := "Fleet size " ++ toString (ctx.fleet_size.getD 0) ++
        " meets minimum " ++ toString min_fleet }
  else
    let actual := if pyTruthyInt ctx.fleet_size then
        toString (ctx.fleet_size.getD 0) else "0"
    { passed := false, max_score := 10, check_name := "Fleet Size"
      required := "Minimum " ++ toString min_fleet, actual := actual
      message := "Fleet size " ++ actual ++ " below minimum " ++ toString min_fleet }

/-- `BusinessRequirementsRule._check_annual_revenue`. -/
def BusinessRequirementsRule.check_annual_revenue (ctx : EvaluationContext)
    (min_revenue : ℤ) : CheckResult :=
  if pyTruthyInt ctx.annual_revenue ∧ ctx.annual_revenue.getD 0 ≥ min_revenue then
    { passed := true, score := 10, max_score := 10
      message := "Annual revenue $" ++ intWithCommas (ctx.annual_revenue.getD 0) ++
        " meets minimum $" ++ intWithCommas min_revenue }
  else
    let actual := if pyTruthyInt ctx.annual_revenue then
        "$" ++ intWithCommas (ctx.annual_revenue.getD 0) else "Not provided"
    { passed := false, max_score := 10, check_name := "Annual Revenue"
      required := "$" ++ intWithCommas min_revenue, actual := actual
      message := "Annual revenue " ++ actual ++ " below minimum $" ++
        intWithCommas min_revenue }

/-- `BusinessRequirementsRule._is_cdl_required`. -/
def BusinessRequirementsRule.is_cdl_required (criteria : CriteriaDict)
    (ctx : EvaluationContext) : Bool :=
  match criteria.requires_cdl with
  | some CdlRequirement.conditional => ctx.is_trucking
  | some (CdlRequirement.flag b) => b
  | none => false

/-- The ordered list of applicable sub-checks run by
`BusinessRequirementsRule.evaluate` (each present only if its key exists in
the criteria dict; `requires_homeowner` uses Python truthiness). -/
def BusinessRequirementsRule.collectChecks (ctx : EvaluationContext)
    (criteria : CriteriaDict) : List CheckResult :=
  (match criteria.min_time_in_business_years with
   | some m => [BusinessRequirementsRule.check_time_in_business ctx m]
   | none => []) ++
  (match criteria.requires_homeowner with
   | some true => [BusinessRequirementsRule.check_homeowner ctx]
   | _ => []) ++
  (if BusinessRequirementsRule.is_cdl_required criteria ctx then
    [BusinessRequirementsRule.check_cdl ctx] else []) ++
  (match criteria.min_cdl_years with
   | some m => [BusinessRequirementsRule.check_cdl_years ctx m]
   | none => []) ++
  (match criteria.min_industry_experience_years with
   | some m => [BusinessRequirementsRule.check_industry_experience ctx m]
   | none => []) ++
  (match criteria.min_fleet_size with
   | some m => [BusinessRequirementsRule.check_fleet_size ctx m]
   | none => []) ++
  (match criteria.min_annual_revenue with
   | some m => [BusinessRequirementsRule.check_annual_revenue ctx m]
   | none => [])

/-- `BusinessRequirementsRule._build_result`. -/
def BusinessRequirementsRule.build_result (checks : AggregatedChecks) : RuleResult :=
  match checks.failed_checks with
  | f :: _ =>
    Rule.createFailedResult "Business Requirements"
      (String.intercalate "; " (checks.failed_checks.map (·.required)))
      (String.intercalate "; " (checks.failed_checks.map (·.actual)))
      f.message
      (some (RuleDetails.business checks.failed_checks checks.passed_checks))
  | [] =>
    let normalized_score :=
      if checks.max_possible > 0 then
        checks.total_score / checks.max_possible * 100
      else 100
    Rule.createPassedResult "Business Requirements" "All met" "All met"
      "All business requirements satisfied" normalized_score
      (some (RuleDetails.business [] checks.passed_checks))

/-- `BusinessRequirementsRule.evaluate`. -/
def BusinessRequirementsRule.evaluate (ctx : EvaluationContext)
    (criteria : CriteriaDict) : RuleResult :=
  BusinessRequirementsRule.build_result
    ((BusinessRequirementsRule.collectChecks ctx criteria).foldl
      AggregatedChecks.add_result {})

/-! ## Policy schema (`app/policies/schema.py`), fields read by the engine -/

/-- `CreditScoreCriteria`. -/
structure CreditScoreCriteria where
  type : String := "fico"
  min : ℤ
  deriving DecidableEq, Repr

/-- `BusinessCriteria` (the engine forwards every field except
`requires_us_citizen` into the rule's criteria dict). -/
structure BusinessCriteria where
  min_time_in_business_years : Option ℚ := none
  requires_homeowner : Option Bool := none
  requires_cdl : Option CdlRequirement := none
  min_cdl_years : Option ℤ := none
  min_industry_experience_years : Option ℤ := none
  min_fleet_size : Option ℤ := none
  requires_us_citizen : Option Bool := none
  deriving DecidableEq, Repr

/-- `CreditHistoryCriteria` (fields forwarded by the engine). -/
structure CreditHistoryCriteria where
  max_bankruptcies : Option ℤ := none
  bankruptcy_min_discharge_years : Option ℚ := none
  allows_active_bankruptcy : Bool := false
  max_open_judgements : Option ℤ := none
  max_judgement_amount : Option ℤ := none
  allows_foreclosure : Option Bool := none
  allows_repossession : Option Bool := none
  max_tax_liens : Option ℤ := none
  max_collections_years : Option ℤ := none
  deriving DecidableEq, Repr

/-- `EquipmentCriteria`. -/
structure EquipmentCriteria where
  max_age_years : Option ℤ := none
  max_mileage : Option ℤ := none
  max_hours : Option ℤ := none
  allowed_categories : Option (List String) := none
  excluded_categories : Option (List String) := none
  deriving DecidableEq, Repr

/-- `GeographicCriteria`. -/
structure GeographicCriteria where
  allowed_states : Option (List String) := none
  excluded_states : Option (List String) := none
  deriving DecidableEq, Repr

/-- `IndustryCriteria`. -/
structure IndustryCriteria where
  allowed_industries : Option (List String) := none
  excluded_industries : Option (List String) := none
  deriving DecidableEq, Repr

/-- `TransactionCriteria`. -/
structure TransactionCriteria where
  allowed_types : Option (List String) := none
  excluded_types : Option (List String) := none
  allows_private_party : Bool := true
  allows_sale_leaseback : Bool := true
  allows_refinance : Bool := true
  deriving DecidableEq, Repr

/-- `LoanAmountCriteria`. -/
structure LoanAmountCriteria where
  min_amount : Option ℤ := none
  max_amount : Option ℤ := none
  deriving DecidableEq, Repr

/-- `ProgramCriteria`: each section present or absent independently. -/
structure ProgramCriteria where
  credit_score : Option CreditScoreCriteria := none
  business : Option BusinessCriteria := none
  credit_history : Option CreditHistoryCriteria := none
  equipment : Option EquipmentCriteria := none
  geographic : Option GeographicCriteria := none
  industry : Option IndustryCriteria := none
  transaction : Option TransactionCriteria := none
  loan_amount : Option LoanAmountCriteria := none
  deriving DecidableEq, Repr

/-- `LenderProgram` (fields read by the engine). -/
structure LenderProgram where
  id : String
  name : String
  min_amount : Option ℤ := none
  max_amount : Option ℤ := none
  max_term_months : Option ℤ := none
  criteria : ProgramCriteria := {}
  deriving DecidableEq, Repr

/-- `LenderRestrictions`: lender-wide restrictions. -/
structure LenderRestrictions where
  geographic : Option GeographicCriteria := none
  industry : Option IndustryCriteria := none
  transaction : Option TransactionCriteria := none
  equipment : Option EquipmentCriteria := none
  deriving DecidableEq, Repr

/-- `LenderPolicy` (fields read by the engine). -/
structure LenderPolicy where
  id : String
  name : String
  programs : List LenderProgram := []
  restrictions : Option LenderRestrictions := none
  deriving DecidableEq, Repr

/-! ## Rule registry (`app/rules/registry.py`) -/

/-- The polymorphic rule contract: `evaluate(context, criteria) -> RuleResult`. -/
def RuleImpl : Type := EvaluationContext → CriteriaDict → RuleResult

/-- `RuleRegistry`: the process-wide map from type keys to rule
implementations (`_rules`; the `_instances` cache is behaviourally inert
for pure rules). -/
structure RuleRegistry where
  rules : List (String × RuleImpl)

/-- `RuleRegistry.get_rule`: raises `KeyError` (modelled as `Except.error`
with the exception message) when no rule is registered under `name`. -/
def RuleRegistry.get_rule (reg : RuleRegistry) (name : String) :
    Except String RuleImpl :=
  match reg.rules.lookup name with
  | some r => Except.ok r
  | none => Except.error ("No rule registered with name: " ++ name)

/-- `RuleRegistry.has_rule`. -/
def RuleRegistry.has_rule (reg : RuleRegistry) (name : String) : Bool :=
  (reg.rules.lookup name).isSome

/-! ## Matching engine (`app/rules/engine.py`) -/

/-- `ProgramMatchResult` dataclass. -/
structure ProgramMatchResult where
  program_id : String
  program_name : String
  is_eligible : Bool
  fit_score : ℚ := 0
  criteria_results : List RuleResult := []
  rejection_reasons : List String := []
  max_term_months : Option ℤ := none
  deriving DecidableEq, Repr

/-- `ProgramMatchResult.passed_criteria_count`. -/
def ProgramMatchResult.passed_criteria_count (p : ProgramMatchResult) : ℕ :=
  (p.criteria_results.filter (·.passed)).length

/-- `ProgramMatchResult.failed_criteria_count`. -/
def ProgramMatchResult.failed_criteria_count (p : ProgramMatchResult) : ℕ :=
  (p.criteria_results.filter (fun r => ¬ r.passed)).length

/-- `LenderMatchResult` dataclass. -/
structure LenderMatchResult where
  lender_id : String
  lender_name : String
  is_eligible : Bool
  best_program : Option ProgramMatchResult := none
  fit_score : ℚ := 0
  program_results : List ProgramMatchResult := []
  global_rejection_reasons : List String := []
  rank : Option ℕ := none
  deriving DecidableEq, Repr

/-- `MatchingEngine._evaluate_geographic_restriction` (also used for
program-level geographic criteria). -/
def MatchingEngine.evaluate_geographic_restriction (ctx : EvaluationContext)
    (geo_criteria : GeographicCriteria) : Option RuleResult :=
  let state := if ctx.state = "" then "" else strUpper ctx.state
  let excl := geo_criteria.excluded_states.getD []
  let excludedFailure : Option RuleResult :=
    if excl ≠ [] ∧ state ∈ excl.map strUpper then
      some (RuleResult.make false "State Restriction"
        ("Not in: " ++ String.intercalate ", " (excl.map strUpper)) state
        ("State " ++ state ++ " is excluded by this lender") 0 none)
    else none
  match excludedFailure with
  | some r => some r
  | none =>
    let alw := geo_criteria.allowed_states.getD []
    if alw ≠ [] ∧ state ∉ alw.map strUpper then
      some (RuleResult.make false "State Restriction"
        ("Must be in: " ++ String.intercalate ", " (alw.map strUpper)) state
        ("State " ++ state ++ " is not in the allowed list") 0 none)
    else none

/-- `MatchingEngine._evaluate_industry_restriction` (also used for
program-level industry criteria): substring match of each excluded pattern
against the lowercased industry code and name, first match wins. -/
def MatchingEngine.evaluate_industry_restriction (ctx : EvaluationContext)
    (industry_criteria : IndustryCriteria) : Option RuleResult :=
  let industry := if ctx.industry_code = "" then "" else strLower ctx.industry_code
  let industry_name := if ctx.industry_name = "" then "" else strLower ctx.industry_name
  let excl := industry_criteria.excluded_industries.getD []
  if excl ≠ [] then
    match (excl.map strLower).find?
        (fun exc => strContains exc industry || strContains exc industry_name) with
    | some exc =>
      some (RuleResult.make false "Industry Restriction"
        ("Not: " ++ exc)
        (if industry ≠ "" then industry else industry_name)
        ("Industry '" ++ exc ++ "' is excluded by this lender") 0 none)
    | none => none
  else none

/-- `MatchingEngine._evaluate_transaction_restriction` (also used for
program-level transaction criteria). -/
def MatchingEngine.evaluate_transaction_restriction (ctx : EvaluationContext)
    (txn_criteria : TransactionCriteria) : Option RuleResult :=
  if ctx.is_private_party ∧ ¬ txn_criteria.allows_private_party then
    some (RuleResult.make false "Transaction Type" "No private party sales"
      "Private party sale" "Private party sales are not allowed by this lender" 0 none)
  else if ctx.transaction_type = "sale_leaseback" ∧ ¬ txn_criteria.allows_sale_leaseback then
    some (RuleResult.make false "Transaction Type" "No sale-leaseback"
      "Sale-leaseback" "Sale-leaseback transactions are not allowed" 0 none)
  else if ctx.transaction_type = "refinance" ∧ ¬ txn_criteria.allows_refinance then
    some (RuleResult.make false "Transaction Type" "No refinance"
      "Refinance" "Refinance transactions are not allowed" 0 none)
  else none

/-- `MatchingEngine._evaluate_equipment_restriction`. -/
def MatchingEngine.evaluate_equipment_restriction (ctx : EvaluationContext)
    (equip_criteria : EquipmentCriteria) : Option RuleResult :=
  let category := strLower ctx.equipment_category
  let excl := equip_criteria.excluded_categories.getD []
  let excludedFailure : Option RuleResult :=
    if excl ≠ [] ∧ category ∈ excl.map strLower then
      some (RuleResult.make false "Equipment Restriction"
        ("Not: " ++ category) category
        ("Equipment category '" ++ category ++ "' is not allowed") 0 none)
    else none
  match excludedFailure with
  | some r => some r
  | none =>
    match equip_criteria.max_age_years with
    | some maxAge =>
      if ctx.equipment_age_years > maxAge then
        some (RuleResult.make false "Equipment Age"
          ("Max " ++ toString maxAge ++ " years")
          (toString ctx.equipment_age_years ++ " years")
          ("Equipment is too old (" ++ toString ctx.equipment_age_years ++ " years)")
          0 none)
      else none
    | none => none

/-- `MatchingEngine._evaluate_restrictions`: geographic, then industry, then
transaction, then equipment; every evaluator's (failing) result is collected —
there is no short-circuit between restriction kinds. -/
def MatchingEngine.evaluate_restrictions (ctx : EvaluationContext)
    (restrictions : LenderRestrictions) : List RuleResult :=
  (match restrictions.geographic with
   | some g => (MatchingEngine.evaluate_geographic_restriction ctx g).toList
   | none => []) ++
  (match restrictions.industry with
   | some i => (MatchingEngine.evaluate_industry_restriction ctx i).toList
   | none => []) ++
  (match restrictions.transaction with
   | some t => (MatchingEngine.evaluate_transaction_restriction ctx t).toList
   | none => []) ++
  (match restrictions.equipment with
   | some e => (MatchingEngine.evaluate_equipment_restriction ctx e).toList
   | none => [])

/-- The criteria dict the engine builds for the business rule; keys are added
only for fields that are not `None`. -/
def MatchingEngine.businessDict (bc : BusinessCriteria) : CriteriaDict :=
  { min_time_in_business_years := bc.min_time_in_business_years
    requires_homeowner := bc.requires_homeowner
    requires_cdl := bc.requires_cdl
    min_cdl_years := bc.min_cdl_years
    min_industry_experience_years := bc.min_industry_experience_years
    min_fleet_size := bc.min_fleet_size }

/-- `if business_dict:` — whether the business dict is non-empty. -/
def MatchingEngine.businessDictNonempty (bc : BusinessCriteria) : Bool :=
  bc.min_time_in_business_years.isSome || bc.requires_homeowner.isSome ||
  bc.requires_cdl.isSome || bc.min_cdl_years.isSome ||
  bc.min_industry_experience_years.isSome || bc.min_fleet_size.isSome

/-- The criteria dict the engine builds for the credit history rule. -/
def MatchingEngine.historyDict (hc : CreditHistoryCriteria) : CriteriaDict :=
  { max_bankruptcies := hc.max_bankruptcies
    bankruptcy_min_discharge_years := hc.bankruptcy_min_discharge_years
    max_open_judgements := hc.max_open_judgements
    allows_foreclosure := hc.allows_foreclosure
    allows_repossession := hc.allows_repossession
    max_tax_liens := hc.max_tax_liens }

/-- `if history_dict:` — whether the credit history dict is non-empty. -/
def MatchingEngine.historyDictNonempty (hc : CreditHistoryCriteria) : Bool :=
  hc.max_bankruptcies.isSome || hc.bankruptcy_min_discharge_years.isSome ||
  hc.max_open_judgements.isSome || hc.allows_foreclosure.isSome ||
  hc.allows_repossession.isSome || hc.max_tax_liens.isSome

/-- The criteria dict the engine builds for the equipment rule. -/
def MatchingEngine.equipDict (ec : EquipmentCriteria) : CriteriaDict :=
  { max_age_years := ec.max_age_years
    max_mileage := ec.max_mileage }

/-- `if equip_dict:` — whether the equipment dict is non-empty. -/
def MatchingEngine.equipDictNonempty (ec : EquipmentCriteria) : Bool :=
  ec.max_age_years.isSome || ec.max_mileage.isSome

/-- The criteria dict the engine builds for the loan amount rule. -/
def MatchingEngine.amountDict (lc : LoanAmountCriteria) : CriteriaDict :=
  { min_amount := lc.min_amount
    max_amount := lc.max_amount }

/-- `if amount_dict:` — whether the loan amount dict is non-empty. -/
def MatchingEngine.amountDictNonempty (lc : LoanAmountCriteria) : Bool :=
  lc.min_amount.isSome || lc.max_amount.isSome

/-- The credit-score section of `_evaluate_criteria`. The sections of
`_evaluate_criteria` are split into one definition each, sequenced in source
order (credit score, business, credit history, equipment, loan amount, then
the engine-level geographic / industry / transaction checks); registry
lookups that fail propagate as errors. -/
def MatchingEngine.criteriaCredit (reg : RuleRegistry) (ctx : EvaluationContext) :
    Option CreditScoreCriteria → Except String (List RuleResult)
  | none => pure []
  | some cs => do
    let rule ← reg.get_rule "credit_score"
    pure [rule ctx { type := some cs.type, min := some cs.min }]

/-- The business section of `_evaluate_criteria`: the registry lookup happens
before the dict-emptiness check. -/
def MatchingEngine.criteriaBusiness (reg : RuleRegistry) (ctx : EvaluationContext) :
    Option BusinessCriteria → Except String (List RuleResult)
  | none => pure []
  | some bc => do
    let rule ← reg.get_rule "business"
    if MatchingEngine.businessDictNonempty bc then
      pure [rule ctx (MatchingEngine.businessDict bc)]
    else
      pure []

/-- The credit-history section of `_evaluate_criteria`. -/
def MatchingEngine.criteriaHistory (reg : RuleRegistry) (ctx : EvaluationContext) :
    Option CreditHistoryCriteria → Except String (List RuleResult)
  | none => pure []
  | some hc => do
    let rule ← reg.get_rule "credit_history"
    if MatchingEngine.historyDictNonempty hc then
      pure [rule ctx (MatchingEngine.historyDict hc)]
    else
      pure []

/-- The equipment section of `_evaluate_criteria`. -/
def MatchingEngine.criteriaEquip (reg : RuleRegistry) (ctx : EvaluationContext) :
    Option EquipmentCriteria → Except String (List RuleResult)
  | none => pure []
  | some ec => do
    let rule ← reg.get_rule "equipment"
    if MatchingEngine.equipDictNonempty ec then
      pure [rule ctx (MatchingEngine.equipDict ec)]
    else
      pure []

/-- The loan-amount section of `_evaluate_criteria`. -/
def MatchingEngine.criteriaAmount (reg : RuleRegistry) (ctx : EvaluationContext) :
    Option LoanAmountCriteria → Except String (List RuleResult)
  | none => pure []
  | some lc => do
    let rule ← reg.get_rule "loan_amount"
    if MatchingEngine.amountDictNonempty lc then
      pure [rule ctx (MatchingEngine.amountDict lc)]
    else
      pure []

def MatchingEngine.evaluate_criteria (reg : RuleRegistry) (ctx : EvaluationContext)
    (criteria : ProgramCriteria) : Except String (List RuleResult) := do
  let creditResults ← MatchingEngine.criteriaCredit reg ctx criteria.credit_score
  let businessResults ← MatchingEngine.criteriaBusiness reg ctx criteria.business
  let historyResults ← MatchingEngine.criteriaHistory reg ctx criteria.credit_history
  let equipmentResults ← MatchingEngine.criteriaEquip reg ctx criteria.equipment
  let amountResults ← MatchingEngine.criteriaAmount reg ctx criteria.loan_amount
  let geoResults :=
    match criteria.geographic with
    | none => ([] : List RuleResult)
    | some g => (MatchingEngine.evaluate_geographic_restriction ctx g).toList
  let industryResults :=
    match criteria.industry with
    | none => ([] : List RuleResult)
    | some i => (MatchingEngine.evaluate_industry_restriction ctx i).toList
  let txnResults :=
    match criteria.transaction with
    | none => ([] : List RuleResult)
    | some t => (MatchingEngine.evaluate_transaction_restriction ctx t).toList
  pure (creditResults ++ businessResults ++ historyResults ++ equipmentResults ++
    amountResults ++ geoResults ++ industryResults ++ txnResults)

/-- The failing minimum-bound check of `_evaluate_program`: the rejection
reason string paired with the appended `RuleResult`. -/
def MatchingEngine.programMinCheck (ctx : EvaluationContext) (program : LenderProgram) :
    Option (String × RuleResult) :=
  match program.min_amount with
  | some m =>
    if ctx.loan_amount < m then
      some ("Loan amount " ++ formatDollars ctx.loan_amount ++ " below minimum " ++
              formatDollars m,
            RuleResult.make false "Minimum Loan Amount" (formatDollars m)
              (formatDollars ctx.loan_amount) "Loan amount below program minimum" 0 none)
    else none
  | none => none

/-- The failing maximum-bound check of `_evaluate_program`. -/
def MatchingEngine.programMaxCheck (ctx : EvaluationContext) (program : LenderProgram) :
    Option (String × RuleResult) :=
  match program.max_amount with
  | some m =>
    if ctx.loan_amount > m then
      some ("Loan amount " ++ formatDollars ctx.loan_amount ++ " exceeds maximum " ++
              formatDollars m,
            RuleResult.make false "Maximum Loan Amount" (formatDollars m)
              (formatDollars ctx.loan_amount) "Loan amount exceeds program maximum" 0 none)
    else none
  | none => none

/-- `MatchingEngine._evaluate_program`: program min/max loan-amount bounds
first (always), then the criteria sections; the fit score is
`sum(passed scores) / len(all results)` when any result passed, `0` when
results exist but none passed, and `100 / 0` by eligibility when no
criterion was evaluated. -/
def MatchingEngine.evaluate_program (reg : RuleRegistry) (ctx : EvaluationContext)
    (program : LenderProgram) : Except String ProgramMatchResult := do
  let minCheck := MatchingEngine.programMinCheck ctx program
  let maxCheck := MatchingEngine.programMaxCheck ctx program
  let criteriaResults ← MatchingEngine.evaluate_criteria reg ctx program.criteria
  let failedCriteria := criteriaResults.filter (fun r => ¬ r.passed)
  let criteria_results :=
    (minCheck.map Prod.snd).toList ++ (maxCheck.map Prod.snd).toList ++ criteriaResults
  let rejection_reasons :=
    (minCheck.map Prod.fst).toList ++ (maxCheck.map Prod.fst).toList ++
      failedCriteria.map (·.message)
  let is_eligible := minCheck.isNone && maxCheck.isNone && failedCriteria.isEmpty
  let fit_score :=
    if criteria_results ≠ [] then
      let passed_scores := (criteria_results.filter (·.passed)).map (·.score)
      if passed_scores ≠ [] then
        passed_scores.sum / (criteria_results.length : ℚ)
      else 0
    else if is_eligible then 100 else 0
  pure { program_id := program.id
         program_name := program.name
         is_eligible := is_eligible
         fit_score := fit_score
         criteria_results := criteria_results
         rejection_reasons := rejection_reasons
         max_term_months := program.max_term_months }

/-- Python `max(xs, key=f)` restricted to a rational key: the first element
with the maximal key (later elements replace only on strictly greater key). -/
def pyMaxBy {α : Type} (f : α → ℚ) : List α → Option α
  | [] => none
  | x :: xs => some (xs.foldl (fun best y => if f y > f best then y else best) x)

/-- Python `min(xs, key=f)` with a natural-number key: the first element with
the minimal key. -/
def pyMinBy {α : Type} (f : α → ℕ) : List α → Option α
  | [] => none
  | x :: xs => some (xs.foldl (fun best y => if f y < f best then y else best) x)

/-- `MatchingEngine.evaluate_lender`: global restrictions first — if any
fails, the lender result is returned with no program evaluated — then every
program, then best / closest program selection. -/
def MatchingEngine.evaluate_lender (reg : RuleRegistry) (ctx : EvaluationContext)
    (policy : LenderPolicy) : Except String LenderMatchResult :=
  let global_rejection_reasons :=
    match policy.restrictions with
    | some restrictions =>
      ((MatchingEngine.evaluate_restrictions ctx restrictions).filter
        (fun r => ¬ r.passed)).map (·.message)
    | none => []
  if global_rejection_reasons ≠ [] then
    Except.ok { lender_id := policy.id
                lender_name := policy.name
                is_eligible := false
                global_rejection_reasons := global_rejection_reasons }
  else do
    let program_results ← policy.programs.mapM (MatchingEngine.evaluate_program reg ctx)
    let eligible_programs := program_results.filter (·.is_eligible)
    match pyMaxBy (·.fit_score) eligible_programs with
    | some best =>
      pure { lender_id := policy.id
             lender_name := policy.name
             is_eligible := true
             best_program := some best
             fit_score := best.fit_score
             program_results := program_results }
    | none =>
      match pyMinBy ProgramMatchResult.failed_criteria_count program_results with
      | some closest =>
        pure { lender_id := policy.id
               lender_name := policy.name
               is_eligible := false
               best_program := some closest
               fit_score := closest.fit_score
               program_results := program_results }
      | none =>
        pure { lender_id := policy.id
               lender_name := policy.name
               is_eligible := false
               program_results := program_results }

/-! ## Matching service (`app/services/matching_service.py`) -/

/-- `MatchingResult` dataclass. -/
structure MatchingResult where
  «matches» : List LenderMatchResult := []
  best_match : Option LenderMatchResult := none
  total_evaluated : ℕ := 0
  total_eligible : ℕ := 0
  deriving DecidableEq, Repr

/-- The comparison realising Python's
`sorted(matches, key=lambda m: (m.is_eligible, m.fit_score), reverse=True)`:
`m1` may come no later than `m2` iff `m2`'s key `(is_eligible, fit_score)` is
lexicographically no greater than `m1`'s (`False < True` on Booleans). -/
def matchSortLe (m1 m2 : LenderMatchResult) : Bool :=
  decide ((m2.is_eligible < m1.is_eligible) ∨
    (m2.is_eligible = m1.is_eligible ∧ m2.fit_score ≤ m1.fit_score))

/-- The rank-assignment loop of `_build_result`: sequential ranks 1..N over
the sorted list. -/
def assignRanks (l : List LenderMatchResult) : List LenderMatchResult :=
  List.zipWith (fun m r => { m with rank := some r }) l (List.range' 1 l.length)

/-- `LenderMatchingService._build_result`: stable descending sort by
`(is_eligible, fit_score)`, ranks 1..N, best match = first eligible entry. -/
def LenderMatchingService.build_result («matches» : List LenderMatchResult) :
    MatchingResult :=
  let sorted_matches := («matches».mergeSort matchSortLe)
  let ranked := assignRanks sorted_matches
  let eligible_matches := ranked.filter (·.is_eligible)
  { «matches» := ranked
    best_match := eligible_matches.head?
    total_evaluated := «matches».length
    total_eligible := eligible_matches.length }

/-- `LenderMatchingService.match_application` over an already-loaded policy
list: evaluates each lender in order through the engine — an exception from
any single evaluation propagates and aborts the whole round — then builds
the ranked result. -/
def LenderMatchingService.match_application (reg : RuleRegistry)
    (ctx : EvaluationContext) (policies : List LenderPolicy) :
    Except String MatchingResult := do
  let ms ← policies.mapM (MatchingEngine.evaluate_lender reg ctx)
  pure (LenderMatchingService.build_result ms)

/-! ## Helper lemmas -/

theorem RuleResult.make_passed (p : Bool) (n rv av m : String) (s : ℚ)
    (d : Option RuleDetails) : (RuleResult.make p n rv av m s d).passed = p := rfl

theorem RuleResult.make_score_bounds (p : Bool) (n rv av m : String) (s : ℚ)
    (d : Option RuleDetails) :
    0 ≤ (RuleResult.make p n rv av m s d).score ∧
      (RuleResult.make p n rv av m s d).score ≤ 100 := by
  unfold RuleResult.make
  dsimp only
  split_ifs with h1 h2
  · exact ⟨le_refl 0, by norm_num⟩
  · exact ⟨by norm_num, le_refl 100⟩
  · exact ⟨le_of_not_lt h1, le_of_not_lt h2⟩

theorem RuleResult.make_score_eq (p : Bool) (n rv av m : String) (s : ℚ)
    (d : Option RuleDetails) (h0 : 0 ≤ s) (h100 : s ≤ 100) :
    (RuleResult.make p n rv av m s d).score = s := by
  unfold RuleResult.make
  dsimp only
  rw [if_neg (not_lt.mpr h0), if_neg (not_lt.mpr h100)]

theorem Rule.createFailedResult_passed (n rv av m : String) (d : Option RuleDetails) :
    (Rule.createFailedResult n rv av m d).passed = false := rfl

theorem Rule.createFailedResult_score (n rv av m : String) (d : Option RuleDetails) :
    (Rule.createFailedResult n rv av m d).score = 0 :=
  RuleResult.make_score_eq false n rv av m 0 d (le_refl 0) (by norm_num)

theorem Rule.createPassedResult_passed (n rv av m : String) (s : ℚ)
    (d : Option RuleDetails) : (Rule.createPassedResult n rv av m s d).passed = true := rfl

/-! ## C6: credit score rule -/

/-- C6 — For every credit-score evaluation with configured score type and
minimum: a score absent from the context fails with score 0; an actual score
below the minimum fails with score 0; an actual score at or above the
minimum passes with score `70 + min(30, (actual - min) * 0.3)`. -/
theorem creditScore_rule_spec (ctx : EvaluationContext) (criteria : CriteriaDict)
    (t : String) (mn : ℤ) (ht : criteria.type = some t) (hm : criteria.min = some mn) :
    (ctx.get_credit_score t = none →
      (CreditScoreRule.evaluate ctx criteria).passed = false ∧
      (CreditScoreRule.evaluate ctx criteria).score = 0) ∧
    (∀ a : ℤ, ctx.get_credit_score t = some a → a < mn →
      (CreditScoreRule.evaluate ctx criteria).passed = false ∧
      (CreditScoreRule.evaluate ctx criteria).score = 0) ∧
    (∀ a : ℤ, ctx.get_credit_score t = some a → a ≥ mn →
      (CreditScoreRule.evaluate ctx criteria).passed = true ∧
      (CreditScoreRule.evaluate ctx criteria).score =
        70 + min 30 (((a - mn : ℤ) : ℚ) * (3/10))) := by
  refine ⟨?_, ?_, ?_⟩
  · intro hnone
    unfold CreditScoreRule.evaluate
    rw [ht, hm]
    simp only [Option.getD_some, hnone]
    exact ⟨Rule.createFailedResult_passed _ _ _ _ _, Rule.createFailedResult_score _ _ _ _ _⟩
  · intro a hsome hlt
    unfold CreditScoreRule.evaluate
    rw [ht, hm]
    simp only [Option.getD_some, hsome]
    rw [if_neg (not_le.mpr hlt)]
    exact ⟨Rule.createFailedResult_passed _ _ _ _ _, Rule.createFailedResult_score _ _ _ _ _⟩
  · intro a hsome hge
    unfold CreditScoreRule.evaluate
    rw [ht, hm]
    simp only [Option.getD_some, hsome]
    rw [if_pos hge]
    have hx : (0 : ℚ) ≤ ((a - mn : ℤ) : ℚ) * (3/10) := by
      apply mul_nonneg _ (by norm_num)
      exact_mod_cast Int.sub_nonneg.mpr hge
    have hscore : (CreditScoreRule.calculate_bonus_score a mn) =
        70 + min 30 (((a - mn : ℤ) : ℚ) * (3/10)) := rfl
    constructor
    · exact Rule.createPassedResult_passed _ _ _ _ _ _
    · unfold Rule.createPassedResult
      rw [RuleResult.make_score_eq, hscore]
      · unfold CreditScoreRule.calculate_bonus_score
        dsimp only
        have : (0:ℚ) ≤ min 30 (((a - mn : ℤ) : ℚ) * (3/10)) := le_min (by norm_num) hx
        linarith
      · unfold CreditScoreRule.calculate_bonus_score
        dsimp only
        have : min 30 (((a - mn : ℤ) : ℚ) * (3/10)) ≤ 30 := min_le_left _ _
        linarith

/-- C6 witness: the two scenario instances — `actual=700` against `min=700`
passes with score exactly 70, and `actual=800` against `min=700` passes with
score exactly 100 (bonus capped at 30). -/
theorem creditScore_rule_spec_witness :
    ((CreditScoreRule.evaluate { application_id := "w6", fico_score := some 700 }
        { type := some "fico", min := some 700 }).passed = true ∧
      (CreditScoreRule.evaluate { application_id := "w6", fico_score := some 700 }
        { type := some "fico", min := some 700 }).score = 70) ∧
    ((CreditScoreRule.evaluate { application_id := "w6", fico_score := some 800 }
        { type := some "fico", min := some 700 }).passed = true ∧
      (CreditScoreRule.evaluate { application_id := "w6", fico_score := some 800 }
        { type := some "fico", min := some 700 }).score = 100) := by
  constructor
  · have h := (creditScore_rule_spec { application_id := "w6", fico_score := some 700 }
      { type := some "fico", min := some 700 } "fico" 700 rfl rfl).2.2 700 (by decide)
      (by decide)
    refine ⟨h.1, ?_⟩
    rw [h.2]
    norm_num
  · have h := (creditScore_rule_spec { application_id := "w6", fico_score := some 800 }
      { type := some "fico", min := some 700 } "fico" 700 rfl rfl).2.2 800 (by decide)
      (by decide)
    refine ⟨h.1, ?_⟩
    rw [h.2]
    norm_num

/-! ## C9: score clamping and the binary-pass convention -/

theorem StateRestrictionRule.check_excluded_states_some (st : String) (l : List String)
    (r : RuleResult) (h : StateRestrictionRule.check_excluded_states st l = some r) :
    r.passed = false ∧ r.score = 0 := by
  unfold StateRestrictionRule.check_excluded_states at h
  dsimp only at h
  split_ifs at h
  all_goals injection h with h
  all_goals rw [← h]
  all_goals exact ⟨Rule.createFailedResult_passed _ _ _ _ _,
    Rule.createFailedResult_score _ _ _ _ _⟩

theorem StateRestrictionRule.check_allowed_states_some (st : String) (l : List String)
    (r : RuleResult) (h : StateRestrictionRule.check_allowed_states st l = some r) :
    r.passed = false ∧ r.score = 0 := by
  unfold StateRestrictionRule.check_allowed_states at h
  dsimp only at h
  split_ifs at h
  all_goals injection h with h
  all_goals rw [← h]
  all_goals exact ⟨Rule.createFailedResult_passed _ _ _ _ _,
    Rule.createFailedResult_score _ _ _ _ _⟩

theorem IndustryExclusionRule.check_excluded_industries_some (c n o : String)
    (l : List String) (r : RuleResult)
    (h : IndustryExclusionRule.check_excluded_industries c n o l = some r) :
    r.passed = false ∧ r.score = 0 := by
  unfold IndustryExclusionRule.check_excluded_industries at h
  dsimp only at h
  split_ifs at h
  all_goals injection h with h
  all_goals rw [← h]
  all_goals exact ⟨Rule.createFailedResult_passed _ _ _ _ _,
    Rule.createFailedResult_score _ _ _ _ _⟩

theorem IndustryExclusionRule.check_allowed_industries_some (c n o : String)
    (l : List String) (r : RuleResult)
    (h : IndustryExclusionRule.check_allowed_industries c n o l = some r) :
    r.passed = false ∧ r.score = 0 := by
  unfold IndustryExclusionRule.check_allowed_industries at h
  dsimp only at h
  split_ifs at h
  all_goals injection h with h
  all_goals rw [← h]
  all_goals exact ⟨Rule.createFailedResult_passed _ _ _ _ _,
    Rule.createFailedResult_score _ _ _ _ _⟩

theorem TransactionTypeRule.check_transaction_type_some (t : String)
    (c : CriteriaDict) (r : RuleResult)
    (h : TransactionTypeRule.check_transaction_type t c = some r) :
    r.passed = false ∧ r.score = 0 := by
  unfold TransactionTypeRule.check_transaction_type at h
  dsimp only at h
  split_ifs at h
  all_goals injection h with h
  all_goals rw [← h]
  all_goals exact ⟨Rule.createFailedResult_passed _ _ _ _ _,
    Rule.createFailedResult_score _ _ _ _ _⟩

theorem TransactionTypeRule.check_private_party_some (b : Bool)
    (c : CriteriaDict) (r : RuleResult)
    (h : TransactionTypeRule.check_private_party b c = some r) :
    r.passed = false ∧ r.score = 0 := by
  unfold TransactionTypeRule.check_private_party at h
  split_ifs at h
  all_goals injection h with h
  all_goals rw [← h]
  all_goals exact ⟨Rule.createFailedResult_passed _ _ _ _ _,
    Rule.createFailedResult_score _ _ _ _ _⟩

theorem LoanAmountRule.check_minimum_some (la : ℤ) (mo : Option ℤ) (r : RuleResult)
    (h : LoanAmountRule.check_minimum la mo = some r) :
    r.passed = false ∧ r.score = 0 := by
  unfold LoanAmountRule.check_minimum at h
  cases mo with
  | none => exact Option.noConfusion h
  | some m =>
    dsimp only at h
    split_ifs at h
    all_goals injection h with h
    all_goals rw [← h]
    all_goals exact ⟨Rule.createFailedResult_passed _ _ _ _ _,
      Rule.createFailedResult_score _ _ _ _ _⟩

theorem LoanAmountRule.check_maximum_some (la : ℤ) (mo : Option ℤ) (r : RuleResult)
    (h : LoanAmountRule.check_maximum la mo = some r) :
    r.passed = false ∧ r.score = 0 := by
  unfold LoanAmountRule.check_maximum at h
  cases mo with
  | none => exact Option.noConfusion h
  | some m =>
    dsimp only at h
    split_ifs at h
    all_goals injection h with h
    all_goals rw [← h]
    all_goals exact ⟨Rule.createFailedResult_passed _ _ _ _ _,
      Rule.createFailedResult_score _ _ _ _ _⟩

theorem creditScore_failed_score_zero (ctx : EvaluationContext)
    (c : CriteriaDict) (h : (CreditScoreRule.evaluate ctx c).passed = false) :
    (CreditScoreRule.evaluate ctx c).score = 0 := by
  unfold CreditScoreRule.evaluate at h ⊢
  dsimp only at h ⊢
  cases hs : ctx.get_credit_score (c.type.getD "fico") with
  | none =>
    rw [hs] at h
    dsimp only at h ⊢
    exact Rule.createFailedResult_score _ _ _ _ _
  | some a =>
    rw [hs] at h
    dsimp only at h ⊢
    split_ifs at h ⊢ with hge
    · rw [Rule.createPassedResult_passed] at h
      exact Bool.noConfusion h
    · exact Rule.createFailedResult_score _ _ _ _ _

theorem stateRestriction_failed_score_zero (ctx : EvaluationContext)
    (c : CriteriaDict) (h : (StateRestrictionRule.evaluate ctx c).passed = false) :
    (StateRestrictionRule.evaluate ctx c).score = 0 := by
  unfold StateRestrictionRule.evaluate at h ⊢
  dsimp only at h ⊢
  cases h1 : StateRestrictionRule.check_excluded_states (strUpper ctx.state)
      c.excluded_states with
  | some r =>
    dsimp only
    exact (StateRestrictionRule.check_excluded_states_some _ _ _ h1).2
  | none =>
    rw [h1] at h
    dsimp only at h ⊢
    cases h2 : StateRestrictionRule.check_allowed_states (strUpper ctx.state)
        c.allowed_states with
    | some r =>
      dsimp only
      exact (StateRestrictionRule.check_allowed_states_some _ _ _ h2).2
    | none =>
      rw [h2] at h
      dsimp only at h
      rw [Rule.createPassedResult_passed] at h
      exact Bool.noConfusion h

theorem industryExclusion_failed_score_zero (ctx : EvaluationContext)
    (c : CriteriaDict) (h : (IndustryExclusionRule.evaluate ctx c).passed = false) :
    (IndustryExclusionRule.evaluate ctx c).score = 0 := by
  unfold IndustryExclusionRule.evaluate at h ⊢
  dsimp only at h ⊢
  cases h1 : IndustryExclusionRule.check_excluded_industries (strLower ctx.industry_code)
      (strLower ctx.industry_name) ctx.industry_name c.excluded_industries with
  | some r =>
    dsimp only
    exact (IndustryExclusionRule.check_excluded_industries_some _ _ _ _ _ h1).2
  | none =>
    rw [h1] at h
    dsimp only at h ⊢
    cases h2 : IndustryExclusionRule.check_allowed_industries (strLower ctx.industry_code)
        (strLower ctx.industry_name) ctx.industry_name c.allowed_industries with
    | some r =>
      dsimp only
      exact (IndustryExclusionRule.check_allowed_industries_some _ _ _ _ _ h2).2
    | none =>
      rw [h2] at h
      dsimp only at h
      rw [Rule.createPassedResult_passed] at h
      exact Bool.noConfusion h

theorem transactionType_failed_score_zero (ctx : EvaluationContext)
    (c : CriteriaDict) (h : (TransactionTypeRule.evaluate ctx c).passed = false) :
    (TransactionTypeRule.evaluate ctx c).score = 0 := by
  unfold TransactionTypeRule.evaluate at h ⊢
  dsimp only at h ⊢
  cases h1 : TransactionTypeRule.check_transaction_type (strLower ctx.transaction_type)
      c with
  | some r =>
    dsimp only
    exact (TransactionTypeRule.check_transaction_type_some _ _ _ h1).2
  | none =>
    rw [h1] at h
    dsimp only at h ⊢
    cases h2 : TransactionTypeRule.check_private_party ctx.is_private_party c with
    | some r =>
      dsimp only
      exact (TransactionTypeRule.check_private_party_some _ _ _ h2).2
    | none =>
      rw [h2] at h
      dsimp only at h
      rw [Rule.createPassedResult_passed] at h
      exact Bool.noConfusion h

theorem loanAmount_failed_score_zero (ctx : EvaluationContext)
    (c : CriteriaDict) (h : (LoanAmountRule.evaluate ctx c).passed = false) :
    (LoanAmountRule.evaluate ctx c).score = 0 := by
  unfold LoanAmountRule.evaluate at h ⊢
  dsimp only at h ⊢
  cases h1 : LoanAmountRule.check_minimum ctx.loan_amount c.min_amount with
  | some r =>
    dsimp only
    exact (LoanAmountRule.check_minimum_some _ _ _ h1).2
  | none =>
    rw [h1] at h
    dsimp only at h ⊢
    cases h2 : LoanAmountRule.check_maximum ctx.loan_amount c.max_amount with
    | some r =>
      dsimp only
      exact (LoanAmountRule.check_maximum_some _ _ _ h2).2
    | none =>
      rw [h2] at h
      dsimp only at h
      rw [Rule.createPassedResult_passed] at h
      exact Bool.noConfusion h

/-- C9 — Every `RuleResult` is constructed with its score clamped into
`[0, 100]`, and for each binary-pass rule (credit score, geographic,
industry, transaction, loan amount), a failed result has score 0. -/
theorem ruleResult_invariants :
    (∀ (p : Bool) (n rv av m : String) (s : ℚ) (d : Option RuleDetails),
      0 ≤ (RuleResult.make p n rv av m s d).score ∧
        (RuleResult.make p n rv av m s d).score ≤ 100) ∧
    (∀ (ctx : EvaluationContext) (c : CriteriaDict),
      ((CreditScoreRule.evaluate ctx c).passed = false →
        (CreditScoreRule.evaluate ctx c).score = 0) ∧
      ((StateRestrictionRule.evaluate ctx c).passed = false →
        (StateRestrictionRule.evaluate ctx c).score = 0) ∧
      ((IndustryExclusionRule.evaluate ctx c).passed = false →
        (IndustryExclusionRule.evaluate ctx c).score = 0) ∧
      ((TransactionTypeRule.evaluate ctx c).passed = false →
        (TransactionTypeRule.evaluate ctx c).score = 0) ∧
      ((LoanAmountRule.evaluate ctx c).passed = false →
        (LoanAmountRule.evaluate ctx c).score = 0)) :=
  ⟨fun p n rv av m s d => RuleResult.make_score_bounds p n rv av m s d,
   fun ctx c =>
    ⟨creditScore_failed_score_zero ctx c,
     stateRestriction_failed_score_zero ctx c,
     industryExclusion_failed_score_zero ctx c,
     transactionType_failed_score_zero ctx c,
     loanAmount_failed_score_zero ctx c⟩⟩

/-- C9 witness: the clamp at an out-of-range score 150 and the binary-pass
convention at a concrete failing credit-score evaluation. -/
theorem ruleResult_invariants_witness :
    (0 ≤ (RuleResult.make true "r" "a" "b" "m" 150 none).score ∧
      (RuleResult.make true "r" "a" "b" "m" 150 none).score ≤ 100) ∧
    (CreditScoreRule.evaluate { application_id := "w9" }
      { type := some "fico", min := some 650 }).score = 0 :=
  ⟨ruleResult_invariants.1 true "r" "a" "b" "m" 150 none,
   (ruleResult_invariants.2 { application_id := "w9" }
      { type := some "fico", min := some 650 }).1 (by decide)⟩

/-! ## C8: registry lookup is fatal for unregistered keys -/

theorem exceptBind_ok {ε α β : Type} {x : Except ε α} {f : α → Except ε β}
    {b : β} (h : (x >>= f) = Except.ok b) : ∃ a, x = Except.ok a ∧ f a = Except.ok b := by
  cases x with
  | error e => exact Except.noConfusion h
  | ok a => exact ⟨a, rfl, h⟩

theorem RuleRegistry.get_rule_error (reg : RuleRegistry) (name : String)
    (h : reg.has_rule name = false) :
    reg.get_rule name = Except.error ("No rule registered with name: " ++ name) := by
  unfold RuleRegistry.get_rule
  unfold RuleRegistry.has_rule at h
  cases hl : reg.rules.lookup name with
  | none => rfl
  | some r =>
    rw [hl] at h
    exact Bool.noConfusion h

theorem RuleRegistry.get_rule_ok (reg : RuleRegistry) (name : String)
    (h : reg.has_rule name = true) : ∃ r, reg.get_rule name = Except.ok r := by
  unfold RuleRegistry.get_rule
  unfold RuleRegistry.has_rule at h
  cases hl : reg.rules.lookup name with
  | none =>
    rw [hl] at h
    exact Bool.noConfusion h
  | some r => exact ⟨r, rfl⟩

theorem RuleRegistry.has_of_get_rule_ok (reg : RuleRegistry) (name : String)
    (r : RuleImpl) (h : reg.get_rule name = Except.ok r) : reg.has_rule name = true := by
  unfold RuleRegistry.get_rule at h
  unfold RuleRegistry.has_rule
  cases hl : reg.rules.lookup name with
  | none =>
    rw [hl] at h
    exact Except.noConfusion h
  | some r' => rfl

theorem MatchingEngine.criteriaCredit_ok_has (reg : RuleRegistry)
    (ctx : EvaluationContext) (o : Option CreditScoreCriteria) (l : List RuleResult)
    (hok : MatchingEngine.criteriaCredit reg ctx o = Except.ok l) (hsome : o.isSome) :
    reg.has_rule "credit_score" = true := by
  cases o with
  | none => exact Bool.noConfusion hsome
  | some cs =>
    unfold MatchingEngine.criteriaCredit at hok
    obtain ⟨r, hr, -⟩ := exceptBind_ok hok
    exact RuleRegistry.has_of_get_rule_ok reg _ r hr

theorem MatchingEngine.criteriaBusiness_ok_has (reg : RuleRegistry)
    (ctx : EvaluationContext) (o : Option BusinessCriteria) (l : List RuleResult)
    (hok : MatchingEngine.criteriaBusiness reg ctx o = Except.ok l) (hsome : o.isSome) :
    reg.has_rule "business" = true := by
  cases o with
  | none => exact Bool.noConfusion hsome
  | some bc =>
    unfold MatchingEngine.criteriaBusiness at hok
    obtain ⟨r, hr, -⟩ := exceptBind_ok hok
    exact RuleRegistry.has_of_get_rule_ok reg _ r hr

theorem MatchingEngine.criteriaHistory_ok_has (reg : RuleRegistry)
    (ctx : EvaluationContext) (o : Option CreditHistoryCriteria) (l : List RuleResult)
    (hok : MatchingEngine.criteriaHistory reg ctx o = Except.ok l) (hsome : o.isSome) :
    reg.has_rule "credit_history" = true := by
  cases o with
  | none => exact Bool.noConfusion hsome
  | some hc =>
    unfold MatchingEngine.criteriaHistory at hok
    obtain ⟨r, hr, -⟩ := exceptBind_ok hok
    exact RuleRegistry.has_of_get_rule_ok reg _ r hr

theorem MatchingEngine.criteriaEquip_ok_has (reg : RuleRegistry)
    (ctx : EvaluationContext) (o : Option EquipmentCriteria) (l : List RuleResult)
    (hok : MatchingEngine.criteriaEquip reg ctx o = Except.ok l) (hsome : o.isSome) :
    reg.has_rule "equipment" = true := by
  cases o with
  | none => exact Bool.noConfusion hsome
  | some ec =>
    unfold MatchingEngine.criteriaEquip at hok
    obtain ⟨r, hr, -⟩ := exceptBind_ok hok
    exact RuleRegistry.has_of_get_rule_ok reg _ r hr

theorem MatchingEngine.criteriaAmount_ok_has (reg : RuleRegistry)
    (ctx : EvaluationContext) (o : Option LoanAmountCriteria) (l : List RuleResult)
    (hok : MatchingEngine.criteriaAmount reg ctx o = Except.ok l) (hsome : o.isSome) :
    reg.has_rule "loan_amount" = true := by
  cases o with
  | none => exact Bool.noConfusion hsome
  | some lc =>
    unfold MatchingEngine.criteriaAmount at hok
    obtain ⟨r, hr, -⟩ := exceptBind_ok hok
    exact RuleRegistry.has_of_get_rule_ok reg _ r hr

/-- A successful `_evaluate_criteria` run implies every present
registry-dispatched section resolved its rule key. -/
theorem MatchingEngine.evaluate_criteria_ok_sections (reg : RuleRegistry)
    (ctx : EvaluationContext) (criteria : ProgramCriteria) (rs : List RuleResult)
    (hok : MatchingEngine.evaluate_criteria reg ctx criteria = Except.ok rs) :
    (criteria.credit_score.isSome → reg.has_rule "credit_score" = true) ∧
    (criteria.business.isSome → reg.has_rule "business" = true) ∧
    (criteria.credit_history.isSome → reg.has_rule "credit_history" = true) ∧
    (criteria.equipment.isSome → reg.has_rule "equipment" = true) ∧
    (criteria.loan_amount.isSome → reg.has_rule "loan_amount" = true) := by
  unfold MatchingEngine.evaluate_criteria at hok
  obtain ⟨l1, h1, hok⟩ := exceptBind_ok hok
  obtain ⟨l2, h2, hok⟩ := exceptBind_ok hok
  obtain ⟨l3, h3, hok⟩ := exceptBind_ok hok
  obtain ⟨l4, h4, hok⟩ := exceptBind_ok hok
  obtain ⟨l5, h5, hok⟩ := exceptBind_ok hok
  exact ⟨MatchingEngine.criteriaCredit_ok_has reg ctx _ _ h1,
    MatchingEngine.criteriaBusiness_ok_has reg ctx _ _ h2,
    MatchingEngine.criteriaHistory_ok_has reg ctx _ _ h3,
    MatchingEngine.criteriaEquip_ok_has reg ctx _ _ h4,
    MatchingEngine.criteriaAmount_ok_has reg ctx _ _ h5⟩

/-- C8 — Resolving an unregistered key raises a fatal lookup error with the
`KeyError` message; resolving a registered key never raises; and a program
criteria bag referencing an unregistered rule key makes `_evaluate_criteria`
abort with an error instead of silently skipping the section. -/
theorem registry_unresolvable_key_fatal :
    (∀ (reg : RuleRegistry) (name : String), reg.has_rule name = false →
      reg.get_rule name = Except.error ("No rule registered with name: " ++ name)) ∧
    (∀ (reg : RuleRegistry) (name : String), reg.has_rule name = true →
      ∃ r, reg.get_rule name = Except.ok r) ∧
    (∀ (reg : RuleRegistry) (ctx : EvaluationContext) (criteria : ProgramCriteria),
      ((criteria.credit_score.isSome ∧ reg.has_rule "credit_score" = false) ∨
       (criteria.business.isSome ∧ reg.has_rule "business" = false) ∨
       (criteria.credit_history.isSome ∧ reg.has_rule "credit_history" = false) ∨
       (criteria.equipment.isSome ∧ reg.has_rule "equipment" = false) ∨
       (criteria.loan_amount.isSome ∧ reg.has_rule "loan_amount" = false)) →
      ∃ e, MatchingEngine.evaluate_criteria reg ctx criteria = Except.error e) := by
  refine ⟨RuleRegistry.get_rule_error, RuleRegistry.get_rule_ok, ?_⟩
  intro reg ctx criteria hbad
  cases hres : MatchingEngine.evaluate_criteria reg ctx criteria with
  | error e => exact ⟨e, rfl⟩
  | ok rs =>
    exfalso
    have hsec := MatchingEngine.evaluate_criteria_ok_sections reg ctx criteria rs hres
    rcases hbad with ⟨hs, hf⟩ | ⟨hs, hf⟩ | ⟨hs, hf⟩ | ⟨hs, hf⟩ | ⟨hs, hf⟩
    · rw [hsec.1 hs] at hf; exact Bool.noConfusion hf
    · rw [hsec.2.1 hs] at hf; exact Bool.noConfusion hf
    · rw [hsec.2.2.1 hs] at hf; exact Bool.noConfusion hf
    · rw [hsec.2.2.2.1 hs] at hf; exact Bool.noConfusion hf
    · rw [hsec.2.2.2.2 hs] at hf; exact Bool.noConfusion hf

/-- C8 witness: on an empty registry, resolving `credit_score` errors with
the `KeyError` message, and a criteria bag with a credit-score section makes
`_evaluate_criteria` error. -/
theorem registry_unresolvable_key_fatal_witness :
    (RuleRegistry.mk []).get_rule "credit_score" =
      Except.error "No rule registered with name: credit_score" ∧
    (∃ e, MatchingEngine.evaluate_criteria (RuleRegistry.mk [])
      { application_id := "w8" }
      { credit_score := some { min := 700 } } = Except.error e) :=
  ⟨registry_unresolvable_key_fatal.1 (RuleRegistry.mk []) "credit_score" rfl,
   registry_unresolvable_key_fatal.2.2 (RuleRegistry.mk []) { application_id := "w8" }
     { credit_score := some { min := 700 } } (Or.inl ⟨rfl, rfl⟩)⟩

/-! ## C5: program fit score -/

theorem sum_passed_scores (l : List RuleResult) :
    ((l.filter (·.passed)).map (·.score)).sum =
      (l.map (fun r => if r.passed then r.score else 0)).sum := by
  induction l with
  | nil => rfl
  | cons r rest ih =>
    by_cases hp : r.passed
    · simp only [List.filter_cons, hp, if_pos, List.map_cons, List.sum_cons, ih]
    · simp only [List.filter_cons, List.map_cons, List.sum_cons, hp, Bool.false_eq_true,
        not_false_eq_true, if_neg, ih, decide_eq_true_eq]
      simp [hp, ih]

/-- C5 — For every completed program evaluation: with at least one evaluated
`RuleResult`, the fit score is the average of all results' scores with
failed results contributing 0; with no evaluated criterion, the fit score is
100 when eligible and 0 otherwise. -/
theorem program_fit_score_spec (reg : RuleRegistry) (ctx : EvaluationContext)
    (program : LenderProgram) (pr : ProgramMatchResult)
    (hok : MatchingEngine.evaluate_program reg ctx program = Except.ok pr) :
    (pr.criteria_results ≠ [] →
      pr.fit_score =
        (pr.criteria_results.map (fun r => if r.passed then r.score else 0)).sum /
          (pr.criteria_results.length : ℚ)) ∧
    (pr.criteria_results = [] →
      pr.fit_score = if pr.is_eligible then 100 else 0) := by
  unfold MatchingEngine.evaluate_program at hok
  obtain ⟨rs, hrs, hok⟩ := exceptBind_ok hok
  injection hok with hok
  subst hok
  dsimp only
  constructor
  · intro hne
    rw [if_pos hne]
    by_cases hps : (((MatchingEngine.programMinCheck ctx program).map Prod.snd).toList ++
        ((MatchingEngine.programMaxCheck ctx program).map Prod.snd).toList ++
        rs).filter (·.passed) ≠ []
    · rw [if_pos (by simpa using hps)]
      rw [sum_passed_scores]
    · push_neg at hps
      rw [if_neg (by simpa using hps)]
      rw [← sum_passed_scores, hps]
      simp
  · intro hempty
    rw [if_neg (by simpa using hempty)]

instance {ε α : Type} [DecidableEq ε] [DecidableEq α] : DecidableEq (Except ε α) :=
  fun x y =>
    match x, y with
    | Except.error a, Except.error b =>
      if h : a = b then isTrue (h ▸ rfl)
      else isFalse (by intro hc; injection hc with h2; exact h h2)
    | Except.ok a, Except.ok b =>
      if h : a = b then isTrue (h ▸ rfl)
      else isFalse (by intro hc; injection hc with h2; exact h h2)
    | Except.error _, Except.ok _ => isFalse (fun hc => Except.noConfusion hc)
    | Except.ok _, Except.error _ => isFalse (fun hc => Except.noConfusion hc)

/-- Witness fixture: a registry holding only the credit score rule. -/
def regW5 : RuleRegistry := RuleRegistry.mk [("credit_score", CreditScoreRule.evaluate)]

/-- Witness fixture: an applicant with a 730 FICO score. -/
def ctxW5 : EvaluationContext := { application_id := "w5", fico_score := some 730 }

/-- Witness fixture: a program requiring a 700 FICO score. -/
def progW5 : LenderProgram :=
  { id := "p1", name := "P1", criteria := { credit_score := some { min := 700 } } }

/-- The concrete program result of the witness evaluation. -/
def prW5 : ProgramMatchResult :=
  ((MatchingEngine.evaluate_program regW5 ctxW5 progW5).toOption).getD
    { program_id := "", program_name := "", is_eligible := false }

/-- C5 witness: the concrete single-criterion evaluation has its fit score
equal to the failed-as-zero average of its criteria results. -/
theorem program_fit_score_spec_witness :
    prW5.criteria_results ≠ [] ∧
    prW5.fit_score =
      (prW5.criteria_results.map (fun r => if r.passed then r.score else 0)).sum /
        (prW5.criteria_results.length : ℚ) :=
  ⟨by with_unfolding_all decide,
   (program_fit_score_spec regW5 ctxW5 progW5 prW5 (by with_unfolding_all decide)).1
     (by with_unfolding_all decide)⟩

/-! ## C7: program loan-amount bounds are always checked first -/

/-- C7 — For every completed program evaluation, whatever the configured
criteria sections: a loan amount below the program minimum or above the
program maximum makes the program ineligible, and a rejection reason ending
in the formatted offending bound is recorded. -/
theorem program_bounds_spec (reg : RuleRegistry) (ctx : EvaluationContext)
    (program : LenderProgram) (pr : ProgramMatchResult)
    (hok : MatchingEngine.evaluate_program reg ctx program = Except.ok pr) :
    (∀ m : ℤ, program.min_amount = some m → ctx.loan_amount < m →
      pr.is_eligible = false ∧
      ∃ reason ∈ pr.rejection_reasons, ∃ pre, reason = pre ++ formatDollars m) ∧
    (∀ m : ℤ, program.max_amount = some m → ctx.loan_amount > m →
      pr.is_eligible = false ∧
      ∃ reason ∈ pr.rejection_reasons, ∃ pre, reason = pre ++ formatDollars m) := by
  unfold MatchingEngine.evaluate_program at hok
  obtain ⟨rs, hrs, hok⟩ := exceptBind_ok hok
  injection hok with hok
  subst hok
  constructor
  · intro m hmin hlt
    have hchk : MatchingEngine.programMinCheck ctx program =
        some ("Loan amount " ++ formatDollars ctx.loan_amount ++ " below minimum " ++
                formatDollars m,
              RuleResult.make false "Minimum Loan Amount" (formatDollars m)
                (formatDollars ctx.loan_amount) "Loan amount below program minimum"
                0 none) := by
      unfold MatchingEngine.programMinCheck
      rw [hmin]
      dsimp only
      rw [if_pos hlt]
    refine ⟨?_, ?_⟩
    · dsimp only
      rw [hchk]
      rfl
    · refine ⟨"Loan amount " ++ formatDollars ctx.loan_amount ++ " below minimum " ++
        formatDollars m, ?_, ?_⟩
      · dsimp only
        rw [hchk]
        exact List.mem_append_left _ (List.mem_append_left _ (List.mem_singleton_self _))
      · exact ⟨"Loan amount " ++ formatDollars ctx.loan_amount ++ " below minimum ", rfl⟩
  · intro m hmax hgt
    have hchk : MatchingEngine.programMaxCheck ctx program =
        some ("Loan amount " ++ formatDollars ctx.loan_amount ++ " exceeds maximum " ++
                formatDollars m,
              RuleResult.make false "Maximum Loan Amount" (formatDollars m)
                (formatDollars ctx.loan_amount) "Loan amount exceeds program maximum"
                0 none) := by
      unfold MatchingEngine.programMaxCheck
      rw [hmax]
      dsimp only
      rw [if_pos hgt]
    refine ⟨?_, ?_⟩
    · dsimp only
      rw [hchk]
      simp
    · refine ⟨"Loan amount " ++ formatDollars ctx.loan_amount ++ " exceeds maximum " ++
        formatDollars m, ?_, ?_⟩
      · dsimp only
        rw [hchk]
        exact List.mem_append_left _
          (List.mem_append_right _ (List.mem_singleton_self _))
      · exact ⟨"Loan amount " ++ formatDollars ctx.loan_amount ++ " exceeds maximum ", rfl⟩

/-- Witness fixture for C7: a 15,000,000-minor-unit request against a
program capped at 10,000,000 minor units (Scenario E), with a credit-score
section also configured. -/
def ctxW7 : EvaluationContext :=
  { application_id := "w7", fico_score := some 800, loan_amount := 15000000 }

/-- Witness fixture for C7: the capped program. -/
def progW7 : LenderProgram :=
  { id := "p7", name := "P7", max_amount := some 10000000
    criteria := { credit_score := some { min := 700 } } }

/-- The concrete program result of the C7 witness evaluation. -/
def prW7 : ProgramMatchResult :=
  ((MatchingEngine.evaluate_program regW5 ctxW7 progW7).toOption).getD
    { program_id := "", program_name := "", is_eligible := false }

/-- C7 witness: Scenario E — the program is ineligible despite the passing
credit score, and a rejection reason carries the formatted maximum. -/
theorem program_bounds_spec_witness :
    prW7.is_eligible = false ∧
    ∃ reason ∈ prW7.rejection_reasons, ∃ pre, reason = pre ++ formatDollars 10000000 :=
  (program_bounds_spec regW5 ctxW7 progW7 prW7 (by with_unfolding_all decide)).2
    10000000 rfl (by decide)

/-! ## C3: business requirements scoring -/

theorem foldl_add_result (l : List CheckResult) (init : AggregatedChecks) :
    l.foldl AggregatedChecks.add_result init =
      { failed_checks := init.failed_checks ++
          (l.filter (fun c => ¬ c.passed)).map
            (fun c => ⟨c.check_name, c.required, c.actual, c.message⟩),
        passed_checks := init.passed_checks ++ (l.filter (·.passed)).map (·.message),
        total_score := init.total_score +
          (l.map (fun c => if c.passed then c.score else 0)).sum,
        max_possible := init.max_possible + (l.map (·.max_score)).sum } := by
  induction l generalizing init with
  | nil => simp
  | cons c rest ih =>
    rw [List.foldl_cons, ih]
    unfold AggregatedChecks.add_result
    by_cases hp : c.passed = true
    · simp [List.filter_cons, hp, add_assoc, List.append_assoc]
    · simp only [Bool.not_eq_true] at hp
      simp [List.filter_cons, hp, add_assoc, List.append_assoc]

/-- Every sub-check produced by `collectChecks` has a positive maximum
weight, and a passing sub-check earns between 0 and its maximum. -/
theorem collectChecks_bounds (ctx : EvaluationContext) (criteria : CriteriaDict)
    (c : CheckResult) (hc : c ∈ BusinessRequirementsRule.collectChecks ctx criteria) :
    0 < c.max_score ∧ (c.passed = true → 0 ≤ c.score ∧ c.score ≤ c.max_score) := by
  simp only [BusinessRequirementsRule.collectChecks, List.mem_append] at hc
  rcases hc with ((((((h | h) | h) | h) | h) | h) | h)
  · rcases hm : criteria.min_time_in_business_years with - | m
    · rw [hm] at h
      exact absurd h (List.not_mem_nil c)
    · rw [hm] at h
      rw [List.mem_singleton] at h
      subst h
      unfold BusinessRequirementsRule.check_time_in_business
      split_ifs with hge
      · refine ⟨by norm_num, fun _ => ⟨?_, ?_⟩⟩
        · exact le_min (by norm_num) (by nlinarith)
        · exact min_le_left _ _
      · exact ⟨by norm_num, fun hpass => by exact absurd hpass (by simp)⟩
  · rcases hm : criteria.requires_homeowner with - | b
    · rw [hm] at h
      exact absurd h (List.not_mem_nil c)
    · rw [hm] at h
      cases b
      · exact absurd h (List.not_mem_nil c)
      · rw [List.mem_singleton] at h
        subst h
        unfold BusinessRequirementsRule.check_homeowner
        split_ifs <;> exact ⟨by norm_num, fun _ => by norm_num⟩
  · split_ifs at h
    · rw [List.mem_singleton] at h
      subst h
      unfold BusinessRequirementsRule.check_cdl
      split_ifs <;> exact ⟨by norm_num, fun _ => by norm_num⟩
    · exact absurd h (List.not_mem_nil c)
  · rcases hm : criteria.min_cdl_years with - | m
    · rw [hm] at h
      exact absurd h (List.not_mem_nil c)
    · rw [hm] at h
      rw [List.mem_singleton] at h
      subst h
      unfold BusinessRequirementsRule.check_cdl_years
      split_ifs <;> exact ⟨by norm_num, fun _ => by norm_num⟩
  · rcases hm : criteria.min_industry_experience_years with - | m
    · rw [hm] at h
      exact absurd h (List.not_mem_nil c)
    · rw [hm] at h
      rw [List.mem_singleton] at h
      subst h
      unfold BusinessRequirementsRule.check_industry_experience
      split_ifs <;> exact ⟨by norm_num, fun _ => by norm_num⟩
  · rcases hm : criteria.min_fleet_size with - | m
    · rw [hm] at h
      exact absurd h (List.not_mem_nil c)
    · rw [hm] at h
      rw [List.mem_singleton] at h
      subst h
      unfold BusinessRequirementsRule.check_fleet_size
      split_ifs <;> exact ⟨by norm_num, fun _ => by norm_num⟩
  · rcases hm : criteria.min_annual_revenue with - | m
    · rw [hm] at h
      exact absurd h (List.not_mem_nil c)
    · rw [hm] at h
      rw [List.mem_singleton] at h
      subst h
      unfold BusinessRequirementsRule.check_annual_revenue
      split_ifs <;> exact ⟨by norm_num, fun _ => by norm_num⟩

/-- C3 (amended) — Business requirements evaluation: when all configured
sub-checks pass, the overall score is `sum(earnedScore)/sum(maxScore)*100`;
any failing sub-check fails the whole rule with score 0; and the passing
time-in-business sub-check has maximum weight 25 but earns only the bonus
`min(25, (years - min) * 5)` — an applicant exactly at the minimum earns 0. -/
theorem business_requirements_spec (ctx : EvaluationContext) (criteria : CriteriaDict) :
    ((∀ c ∈ BusinessRequirementsRule.collectChecks ctx criteria, c.passed = true) →
      BusinessRequirementsRule.collectChecks ctx criteria ≠ [] →
      (BusinessRequirementsRule.evaluate ctx criteria).passed = true ∧
      (BusinessRequirementsRule.evaluate ctx criteria).score =
        ((BusinessRequirementsRule.collectChecks ctx criteria).map (·.score)).sum /
          ((BusinessRequirementsRule.collectChecks ctx criteria).map (·.max_score)).sum
          * 100) ∧
    ((∃ c ∈ BusinessRequirementsRule.collectChecks ctx criteria, c.passed = false) →
      (BusinessRequirementsRule.evaluate ctx criteria).passed = false ∧
      (BusinessRequirementsRule.evaluate ctx criteria).score = 0) ∧
    (∀ m : ℚ, ctx.years_in_business ≥ m →
      (BusinessRequirementsRule.check_time_in_business ctx m).passed = true ∧
      (BusinessRequirementsRule.check_time_in_business ctx m).score =
        min 25 ((ctx.years_in_business - m) * 5) ∧
      (BusinessRequirementsRule.check_time_in_business ctx m).max_score = 25) := by
  refine ⟨?_, ?_, ?_⟩
  · intro hall hne
    set l := BusinessRequirementsRule.collectChecks ctx criteria with hl
    have hfilter : l.filter (fun c => ¬ c.passed) = [] := by
      rw [List.filter_eq_nil_iff]
      intro c hc
      simp [hall c hc]
    have hmap : l.map (fun c => if c.passed then c.score else (0 : ℚ)) =
        l.map (·.score) := by
      apply List.map_congr_left
      intro c hc
      rw [if_pos (hall c hc)]
    have hMpos : 0 < (l.map (·.max_score)).sum := by
      apply List.sum_pos
      · intro x hx
        obtain ⟨c, hc, rfl⟩ := List.mem_map.mp hx
        exact (collectChecks_bounds ctx criteria c hc).1
      · simpa using hne
    have hT0 : 0 ≤ (l.map (·.score)).sum := by
      apply List.sum_nonneg
      intro x hx
      obtain ⟨c, hc, rfl⟩ := List.mem_map.mp hx
      exact ((collectChecks_bounds ctx criteria c hc).2 (hall c hc)).1
    have hTM : (l.map (·.score)).sum ≤ (l.map (·.max_score)).sum := by
      apply List.sum_le_sum
      intro c hc
      exact ((collectChecks_bounds ctx criteria c hc).2 (hall c hc)).2
    have hagg := foldl_add_result l {}
    unfold BusinessRequirementsRule.evaluate
    rw [← hl, hagg]
    unfold BusinessRequirementsRule.build_result
    dsimp only
    rw [hfilter]
    dsimp only [List.map_nil, List.nil_append]
    rw [hmap]
    rw [if_pos (by simpa using hMpos)]
    constructor
    · exact Rule.createPassedResult_passed _ _ _ _ _ _
    · unfold Rule.createPassedResult
      rw [RuleResult.make_score_eq]
      · simp
      · have : 0 ≤ (0 + (l.map (·.score)).sum) / (0 + (l.map (·.max_score)).sum) :=
          div_nonneg (by simpa using hT0) (by simpa using hMpos.le)
        positivity
      · have h1 : (0 + (l.map (·.score)).sum) / (0 + (l.map (·.max_score)).sum) ≤ 1 := by
          rw [div_le_one (by simpa using hMpos)]
          simpa using hTM
        calc (0 + (l.map (·.score)).sum) / (0 + (l.map (·.max_score)).sum) * 100
            ≤ 1 * 100 := by
              apply mul_le_mul_of_nonneg_right h1 (by norm_num)
          _ = 100 := by norm_num
  · rintro ⟨c, hc, hfail⟩
    set l := BusinessRequirementsRule.collectChecks ctx criteria with hl
    have hmem : c ∈ l.filter (fun c => ¬ c.passed) :=
      List.mem_filter.mpr ⟨hc, by simp [hfail]⟩
    have hne : (l.filter (fun c => ¬ c.passed)).map
        (fun c => (⟨c.check_name, c.required, c.actual, c.message⟩ : FailedCheckInfo)) ≠
        [] := by
      simp only [ne_eq, List.map_eq_nil_iff]
      exact List.ne_nil_of_mem hmem
    obtain ⟨f, rest, heq⟩ := List.exists_cons_of_ne_nil hne
    have hagg := foldl_add_result l {}
    unfold BusinessRequirementsRule.evaluate
    rw [← hl, hagg]
    unfold BusinessRequirementsRule.build_result
    dsimp only
    rw [List.nil_append, List.nil_append, heq]
    exact ⟨Rule.createFailedResult_passed _ _ _ _ _, Rule.createFailedResult_score _ _ _ _ _⟩
  · intro m hge
    unfold BusinessRequirementsRule.check_time_in_business
    rw [if_pos hge]
    exact ⟨rfl, rfl, rfl⟩

/-- C3 counterexample fixture: two years in business against a two-year
minimum, homeowner required and satisfied. -/
def ctxC3 : EvaluationContext :=
  { application_id := "c3", years_in_business := 2, is_homeowner := true }

/-- C3 counterexample fixture: the criteria dict the engine would build for
`min_time_in_business_years=2, requires_homeowner=true`. -/
def critC3 : CriteriaDict :=
  { min_time_in_business_years := some 2, requires_homeowner := some true }

/-- C3 counterexample: at exactly the minimum time in business the sub-check
earns 0 (not the base weight 25), so the overall score is
`(0 + 15)/(25 + 15)*100 = 37.5`, where the claim predicts
`(25 + 15)/(25 + 15)*100 = 100`. -/
theorem business_tib_base_weight_counterexample :
    (BusinessRequirementsRule.check_time_in_business ctxC3 2).score = 0 ∧
    (BusinessRequirementsRule.evaluate ctxC3 critC3).passed = true ∧
    (BusinessRequirementsRule.evaluate ctxC3 critC3).score = 75 / 2 ∧
    ((75 : ℚ) / 2 ≠ 100 ∧ (0 : ℚ) ≠ 25) := by
  refine ⟨?_, ?_, ?_, ?_⟩
  · with_unfolding_all decide
  · with_unfolding_all decide
  · with_unfolding_all decide
  · constructor <;> norm_num

/-- C3 witness: a five-years-in-business homeowner against the same
criteria — all sub-checks pass and the score is the earned/max ratio
`(15 + 15)/(25 + 15)*100 = 75`. -/
theorem business_requirements_spec_witness :
    (BusinessRequirementsRule.evaluate
      { application_id := "w3", years_in_business := 5, is_homeowner := true }
      critC3).passed = true ∧
    (BusinessRequirementsRule.evaluate
      { application_id := "w3", years_in_business := 5, is_homeowner := true }
      critC3).score =
      ((BusinessRequirementsRule.collectChecks
        { application_id := "w3", years_in_business := 5, is_homeowner := true }
        critC3).map (·.score)).sum /
      ((BusinessRequirementsRule.collectChecks
        { application_id := "w3", years_in_business := 5, is_homeowner := true }
        critC3).map (·.max_score)).sum * 100 :=
  (business_requirements_spec
    { application_id := "w3", years_in_business := 5, is_homeowner := true } critC3).1
    (by with_unfolding_all decide) (by with_unfolding_all decide)

/-! ## C10: empty state against exclusion / allow lists -/

/-- C10 — With an empty state: a geographic check configuring only
`excluded_states` (no empty-string entry) passes, while a non-empty
`allowed_states` list (without an empty-string entry) always fails — at the
lender-restriction level and at the program-criteria rule level alike. -/
theorem geographic_empty_state_spec (ctx : EvaluationContext) (hstate : ctx.state = "") :
    (∀ geo : GeographicCriteria, "" ∉ (geo.excluded_states.getD []).map strUpper →
      geo.allowed_states.getD [] = [] →
      MatchingEngine.evaluate_geographic_restriction ctx geo = none) ∧
    (∀ geo : GeographicCriteria, geo.allowed_states.getD [] ≠ [] →
      "" ∉ (geo.allowed_states.getD []).map strUpper →
      ∃ r, MatchingEngine.evaluate_geographic_restriction ctx geo = some r ∧
        r.passed = false) ∧
    (∀ c : CriteriaDict, "" ∉ c.excluded_states.map strUpper → c.allowed_states = [] →
      (StateRestrictionRule.evaluate ctx c).passed = true) ∧
    (∀ c : CriteriaDict, c.allowed_states ≠ [] → "" ∉ c.allowed_states.map strUpper →
      (StateRestrictionRule.evaluate ctx c).passed = false) := by
  have hupper : strUpper ctx.state = "" := by rw [hstate]; rfl
  refine ⟨?_, ?_, ?_, ?_⟩
  · intro geo hexcl halw
    unfold MatchingEngine.evaluate_geographic_restriction
    rw [hstate]
    dsimp only
    rw [if_pos rfl]
    rw [if_neg (by
      rintro ⟨-, hmem⟩
      exact hexcl hmem)]
    rw [halw]
    simp
  · intro geo halw hnotin
    unfold MatchingEngine.evaluate_geographic_restriction
    rw [hstate]
    dsimp only
    rw [if_pos rfl]
    by_cases hex : geo.excluded_states.getD [] ≠ [] ∧
        "" ∈ (geo.excluded_states.getD []).map strUpper
    · rw [if_pos hex]
      exact ⟨_, rfl, rfl⟩
    · rw [if_neg hex]
      dsimp only
      rw [if_pos ⟨halw, hnotin⟩]
      exact ⟨_, rfl, rfl⟩
  · intro c hexcl halw
    have h1 : StateRestrictionRule.check_excluded_states "" c.excluded_states = none := by
      unfold StateRestrictionRule.check_excluded_states
      dsimp only
      split_ifs with he
      · rfl
      · rfl
    have h2 : StateRestrictionRule.check_allowed_states "" c.allowed_states = none := by
      unfold StateRestrictionRule.check_allowed_states
      rw [if_pos halw]
    unfold StateRestrictionRule.evaluate
    rw [hupper]
    dsimp only
    rw [h1, h2]
    exact Rule.createPassedResult_passed _ _ _ _ _ _
  · intro c halw hnotin
    have h2 : StateRestrictionRule.check_allowed_states "" c.allowed_states =
        some (Rule.createFailedResult "State Restriction"
          ("One of " ++ String.intercalate ", " (c.allowed_states.map strUpper)) ""
          ("State " ++ "" ++ " is not in the allowed states list") none) := by
      unfold StateRestrictionRule.check_allowed_states
      rw [if_neg (by simpa using halw)]
      dsimp only
      rw [if_pos hnotin]
    unfold StateRestrictionRule.evaluate
    rw [hupper]
    dsimp only
    cases h1 : StateRestrictionRule.check_excluded_states "" c.excluded_states with
    | some r =>
      dsimp only
      exact (StateRestrictionRule.check_excluded_states_some _ _ _ h1).1
    | none =>
      rw [h2]
      dsimp only
      exact Rule.createFailedResult_passed _ _ _ _ _

/-- C10 witness: an application without a state against `excluded=[CA]`
(passes at both levels) and against `allowed=[TX]` (fails at both levels). -/
theorem geographic_empty_state_spec_witness :
    (MatchingEngine.evaluate_geographic_restriction { application_id := "w10" }
      { excluded_states := some ["CA"] } = none) ∧
    (∃ r, MatchingEngine.evaluate_geographic_restriction { application_id := "w10" }
      { allowed_states := some ["TX"] } = some r ∧ r.passed = false) ∧
    (StateRestrictionRule.evaluate { application_id := "w10" }
      { excluded_states := ["CA"] }).passed = true ∧
    (StateRestrictionRule.evaluate { application_id := "w10" }
      { allowed_states := ["TX"] }).passed = false := by
  have h := geographic_empty_state_spec { application_id := "w10" } rfl
  exact ⟨h.1 { excluded_states := some ["CA"] } (by decide) (by decide),
    h.2.1 { allowed_states := some ["TX"] } (by decide) (by decide),
    h.2.2.1 { excluded_states := ["CA"] } (by decide) (by decide),
    h.2.2.2 { allowed_states := ["TX"] } (by decide) (by decide)⟩

/-! ## C2: lender-wide restrictions -/

theorem MatchingEngine.evaluate_geographic_restriction_some (ctx : EvaluationContext)
    (g : GeographicCriteria) (r : RuleResult)
    (h : MatchingEngine.evaluate_geographic_restriction ctx g = some r) :
    r.passed = false := by
  unfold MatchingEngine.evaluate_geographic_restriction at h
  dsimp only at h
  split_ifs at h
  all_goals injection h with h
  all_goals rw [← h]
  all_goals rfl

theorem MatchingEngine.evaluate_industry_restriction_some (ctx : EvaluationContext)
    (i : IndustryCriteria) (r : RuleResult)
    (h : MatchingEngine.evaluate_industry_restriction ctx i = some r) :
    r.passed = false := by
  unfold MatchingEngine.evaluate_industry_restriction at h
  dsimp only at h
  split at h
  · split at h
    · injection h with h
      rw [← h]
      rfl
    · exact Option.noConfusion h
  · exact Option.noConfusion h

theorem MatchingEngine.evaluate_transaction_restriction_some (ctx : EvaluationContext)
    (t : TransactionCriteria) (r : RuleResult)
    (h : MatchingEngine.evaluate_transaction_restriction ctx t = some r) :
    r.passed = false := by
  unfold MatchingEngine.evaluate_transaction_restriction at h
  split_ifs at h
  all_goals injection h with h
  all_goals rw [← h]
  all_goals rfl

theorem MatchingEngine.evaluate_equipment_restriction_some (ctx : EvaluationContext)
    (e : EquipmentCriteria) (r : RuleResult)
    (h : MatchingEngine.evaluate_equipment_restriction ctx e = some r) :
    r.passed = false := by
  unfold MatchingEngine.evaluate_equipment_restriction at h
  dsimp only at h
  split_ifs at h
  · injection h with h
    rw [← h]
    rfl
  · cases hma : e.max_age_years with
    | some maxAge =>
      rw [hma] at h
      dsimp only at h
      split_ifs at h
      injection h with h
      rw [← h]
      rfl
    | none =>
      rw [hma] at h
      exact Option.noConfusion h

/-- Every result collected by `_evaluate_restrictions` is a failure (the
restriction evaluators return `None` on pass). -/
theorem MatchingEngine.evaluate_restrictions_all_failed (ctx : EvaluationContext)
    (restrictions : LenderRestrictions) (r : RuleResult)
    (hr : r ∈ MatchingEngine.evaluate_restrictions ctx restrictions) :
    r.passed = false := by
  unfold MatchingEngine.evaluate_restrictions at hr
  simp only [List.mem_append] at hr
  rcases hr with ((h | h) | h) | h
  · rcases hg : restrictions.geographic with - | g
    · rw [hg] at h
      exact absurd h (List.not_mem_nil r)
    · rw [hg] at h
      rw [Option.mem_toList] at h
      exact MatchingEngine.evaluate_geographic_restriction_some ctx g r h
  · rcases hg : restrictions.industry with - | i
    · rw [hg] at h
      exact absurd h (List.not_mem_nil r)
    · rw [hg] at h
      rw [Option.mem_toList] at h
      exact MatchingEngine.evaluate_industry_restriction_some ctx i r h
  · rcases hg : restrictions.transaction with - | t
    · rw [hg] at h
      exact absurd h (List.not_mem_nil r)
    · rw [hg] at h
      rw [Option.mem_toList] at h
      exact MatchingEngine.evaluate_transaction_restriction_some ctx t r h
  · rcases hg : restrictions.equipment with - | e
    · rw [hg] at h
      exact absurd h (List.not_mem_nil r)
    · rw [hg] at h
      rw [Option.mem_toList] at h
      exact MatchingEngine.evaluate_equipment_restriction_some ctx e r h

/-- C2 (amended) — The four restriction kinds are all evaluated, in the
order geographic, industry, transaction, equipment, and every failing
restriction's message (not only the first) is recorded; if any restriction
fails, the lender result has no program evaluated, is ineligible, and
carries the full list of lender-level rejection reasons. -/
theorem lender_restrictions_spec (reg : RuleRegistry) (ctx : EvaluationContext)
    (policy : LenderPolicy) (restrictions : LenderRestrictions)
    (hres : policy.restrictions = some restrictions)
    (hfail : MatchingEngine.evaluate_restrictions ctx restrictions ≠ []) :
    (∀ r ∈ MatchingEngine.evaluate_restrictions ctx restrictions, r.passed = false) ∧
    ∃ res, MatchingEngine.evaluate_lender reg ctx policy = Except.ok res ∧
      res.is_eligible = false ∧
      res.program_results = [] ∧
      res.best_program = none ∧
      res.global_rejection_reasons =
        (MatchingEngine.evaluate_restrictions ctx restrictions).map (·.message) ∧
      res.global_rejection_reasons ≠ [] := by
  have hall := MatchingEngine.evaluate_restrictions_all_failed ctx restrictions
  have hfilt : (MatchingEngine.evaluate_restrictions ctx restrictions).filter
      (fun r => ¬ r.passed) = MatchingEngine.evaluate_restrictions ctx restrictions := by
    rw [List.filter_eq_self]
    intro r hr
    simp [hall r hr]
  refine ⟨hall, ?_⟩
  unfold MatchingEngine.evaluate_lender
  rw [hres]
  dsimp only
  rw [hfilt]
  rw [if_pos (by
    simpa only [ne_eq, List.map_eq_nil_iff] using hfail)]
  refine ⟨_, rfl, rfl, rfl, rfl, rfl, ?_⟩
  simpa only [ne_eq, List.map_eq_nil_iff] using hfail

/-- C2 counterexample fixture: an applicant in CA in the cannabis industry. -/
def ctxC2 : EvaluationContext :=
  { application_id := "c2", state := "CA", industry_name := "cannabis" }

/-- C2 counterexample fixture: a lender excluding both CA and cannabis. -/
def policyC2 : LenderPolicy :=
  { id := "l2", name := "L2"
    restrictions := some
      { geographic := some { excluded_states := some ["CA"] }
        industry := some { excluded_industries := some ["cannabis"] } } }

/-- C2 counterexample: both the geographic and the industry restriction
fail, and *both* messages are recorded — evaluation is not terminated at the
first failing restriction, which would have recorded the geographic message
alone. -/
theorem lender_restrictions_counterexample :
    (MatchingEngine.evaluate_lender (RuleRegistry.mk []) ctxC2 policyC2).map
      (fun res => (res.global_rejection_reasons, res.program_results.length,
        res.is_eligible)) =
      Except.ok (["State CA is excluded by this lender",
                  "Industry 'cannabis' is excluded by this lender"], 0, false) ∧
    (["State CA is excluded by this lender",
      "Industry 'cannabis' is excluded by this lender"] ≠
      ["State CA is excluded by this lender"]) := by
  constructor
  · decide
  · decide

/-- C2 witness: the amended theorem applied to the concrete two-failure
configuration. -/
theorem lender_restrictions_spec_witness :
    ∃ res, MatchingEngine.evaluate_lender (RuleRegistry.mk []) ctxC2 policyC2 =
        Except.ok res ∧
      res.is_eligible = false ∧
      res.program_results = [] ∧
      res.best_program = none ∧
      res.global_rejection_reasons =
        (MatchingEngine.evaluate_restrictions ctxC2
          { geographic := some { excluded_states := some ["CA"] }
            industry := some { excluded_industries := some ["cannabis"] } }).map
          (·.message) ∧
      res.global_rejection_reasons ≠ [] :=
  (lender_restrictions_spec (RuleRegistry.mk []) ctxC2 policyC2
    { geographic := some { excluded_states := some ["CA"] }
      industry := some { excluded_industries := some ["cannabis"] } }
    rfl (by decide)).2

/-! ## C1: a single lender's configuration-defect error aborts the round -/

/-- C1 fixture: an applicant with a FICO score of 800. -/
def ctxC1 : EvaluationContext := { application_id := "c1", fico_score := some 800 }

/-- C1 fixture: a healthy lender whose single program has no criteria. -/
def pGoodC1 : LenderPolicy :=
  { id := "good", name := "Good", programs := [{ id := "g1", name := "G1" }] }

/-- C1 fixture: a lender whose program references the `credit_score`
criteria section, which is unresolvable on the (defective) empty registry. -/
def pBadC1 : LenderPolicy :=
  { id := "bad", name := "Bad"
    programs := [{ id := "b1", name := "B1"
                   criteria := { credit_score := some { min := 700 } } }] }

/-- C1 — The code does not isolate a per-lender failure: the healthy lender
evaluates fine on its own, yet the whole multi-lender round returns the
raised `KeyError` and produces no result for any lender. -/
theorem matching_round_failure_not_isolated :
    (MatchingEngine.evaluate_lender (RuleRegistry.mk []) ctxC1 pGoodC1).map
      (fun r => (r.lender_id, r.is_eligible, r.fit_score)) =
      Except.ok ("good", true, 100) ∧
    LenderMatchingService.match_application (RuleRegistry.mk []) ctxC1
      [pGoodC1, pBadC1] =
      Except.error "No rule registered with name: credit_score" := by
  constructor
  · with_unfolding_all decide
  · with_unfolding_all decide

/-! ## C4: ranking -/

theorem matchSortLe_iff (a b : LenderMatchResult) :
    matchSortLe a b = true ↔
      (b.is_eligible < a.is_eligible ∨
        (b.is_eligible = a.is_eligible ∧ b.fit_score ≤ a.fit_score)) := by
  simp [matchSortLe]

theorem matchSortLe_total (a b : LenderMatchResult) :
    matchSortLe a b || matchSortLe b a := by
  cases ha : a.is_eligible <;> cases hb : b.is_eligible <;>
    simp [matchSortLe, ha, hb, Bool.lt_iff] <;>
    exact le_total _ _

theorem matchSortLe_trans (a b c : LenderMatchResult) :
    matchSortLe a b → matchSortLe b c → matchSortLe a c := by
  intro h1 h2
  rw [matchSortLe_iff] at h1 h2 ⊢
  rcases h1 with h1 | ⟨h1e, h1f⟩
  · rcases h2 with h2 | ⟨h2e, h2f⟩
    · rw [Bool.lt_iff] at h1 h2
      rw [h1.1] at h2
      exact absurd h2.2 (by simp)
    · exact Or.inl (h2e ▸ h1)
  · rcases h2 with h2 | ⟨h2e, h2f⟩
    · exact Or.inl (h1e ▸ h2)
    · exact Or.inr ⟨h2e.trans h1e, h2f.trans h1f⟩

theorem zipRanks_map (l : List LenderMatchResult) (k : ℕ) :
    (List.zipWith (fun m r => { m with rank := some r }) l
      (List.range' k l.length)).map (·.rank) = (List.range' k l.length).map some := by
  induction l generalizing k with
  | nil => simp
  | cons a t ih => simp [List.range'_succ, ih]

theorem assignRanks_length (l : List LenderMatchResult) :
    (assignRanks l).length = l.length := by
  simp [assignRanks]

theorem assignRanks_getElem (l : List LenderMatchResult) (i : ℕ) (h : i < l.length)
    (ha : i < (assignRanks l).length) :
    (assignRanks l).get ⟨i, ha⟩ = { l.get ⟨i, h⟩ with rank := some (1 + i) } := by
  simp [assignRanks, List.getElem_zipWith]

theorem head?_filter_eq_find? {α : Type} (p : α → Bool) (l : List α) :
    (l.filter p).head? = l.find? p := by
  induction l with
  | nil => rfl
  | cons a t ih =>
    by_cases hp : p a <;> simp [List.filter_cons, List.find?_cons, hp, ih]

/-- C4 — The built matching result sorts lender results descending by
`(is_eligible, fit_score)`: every eligible entry precedes every ineligible
entry, fit scores are non-increasing within each group, ties keep their
original order (stability of the sort), ranks 1..N are assigned across the
whole sorted list, and the best match is the first eligible entry. -/
theorem matching_ranking_spec (ms : List LenderMatchResult) :
    (∀ (i j : ℕ) (hi : i < (LenderMatchingService.build_result ms).«matches».length)
        (hj : j < (LenderMatchingService.build_result ms).«matches».length),
      i < j →
      (((LenderMatchingService.build_result ms).«matches».get ⟨j, hj⟩).is_eligible = true →
        ((LenderMatchingService.build_result ms).«matches».get ⟨i, hi⟩).is_eligible = true) ∧
      (((LenderMatchingService.build_result ms).«matches».get ⟨i, hi⟩).is_eligible =
          ((LenderMatchingService.build_result ms).«matches».get ⟨j, hj⟩).is_eligible →
        ((LenderMatchingService.build_result ms).«matches».get ⟨j, hj⟩).fit_score ≤
          ((LenderMatchingService.build_result ms).«matches».get ⟨i, hi⟩).fit_score)) ∧
    (∀ a b : LenderMatchResult, List.Sublist [a, b] ms →
      a.is_eligible = b.is_eligible → a.fit_score = b.fit_score →
      List.Sublist [a, b] (ms.mergeSort matchSortLe)) ∧
    ((LenderMatchingService.build_result ms).«matches».map (·.rank) =
      (List.range' 1 ms.length).map some) ∧
    ((LenderMatchingService.build_result ms).best_match =
      (LenderMatchingService.build_result ms).«matches».find? (·.is_eligible)) := by
  have hmatches : (LenderMatchingService.build_result ms).«matches» =
      assignRanks (ms.mergeSort matchSortLe) := rfl
  have hsorted : (ms.mergeSort matchSortLe).Pairwise (fun a b => matchSortLe a b = true) :=
    List.sorted_mergeSort matchSortLe_trans matchSortLe_total ms
  have hpair := List.pairwise_iff_getElem.mp hsorted
  refine ⟨?_, ?_, ?_, ?_⟩
  · intro i j hi hj hij
    have hi' : i < (ms.mergeSort matchSortLe).length := by
      rw [hmatches, assignRanks_length] at hi
      exact hi
    have hj' : j < (ms.mergeSort matchSortLe).length := by
      rw [hmatches, assignRanks_length] at hj
      exact hj
    have hle := hpair i j hi' hj' hij
    rw [matchSortLe_iff] at hle
    have hgi : (LenderMatchingService.build_result ms).«matches».get ⟨i, hi⟩ =
        { (ms.mergeSort matchSortLe).get ⟨i, hi'⟩ with rank := some (1 + i) } :=
      assignRanks_getElem (ms.mergeSort matchSortLe) i hi' hi
    have hgj : (LenderMatchingService.build_result ms).«matches».get ⟨j, hj⟩ =
        { (ms.mergeSort matchSortLe).get ⟨j, hj'⟩ with rank := some (1 + j) } :=
      assignRanks_getElem (ms.mergeSort matchSortLe) j hj' hj
    rw [hgi, hgj]
    simp only [List.get_eq_getElem]
    constructor
    · intro hej
      rcases hle with hlt | ⟨heq, -⟩
      · rw [Bool.lt_iff] at hlt
        exact hlt.2
      · rw [← heq]
        exact hej
    · intro heq
      rcases hle with hlt | ⟨-, hf⟩
      · rw [Bool.lt_iff] at hlt
        exact absurd (hlt.1.symm.trans (heq.symm.trans hlt.2)) (by simp)
      · exact hf
  · intro a b hsub he hf
    exact List.pair_sublist_mergeSort matchSortLe_trans matchSortLe_total
      ((matchSortLe_iff a b).mpr (Or.inr ⟨he.symm, le_of_eq hf.symm⟩)) hsub
  · rw [hmatches]
    unfold assignRanks
    rw [zipRanks_map]
    rw [List.length_mergeSort]
  · have hbest : (LenderMatchingService.build_result ms).best_match =
        ((assignRanks (ms.mergeSort matchSortLe)).filter (·.is_eligible)).head? := rfl
    rw [hbest, hmatches]
    exact head?_filter_eq_find? _ _

/-- C4 witness fixture: two eligible lenders tied at fit score 80. -/
def mW1 : LenderMatchResult :=
  { lender_id := "a", lender_name := "A", is_eligible := true, fit_score := 80 }

/-- C4 witness fixture: the second tied lender. -/
def mW2 : LenderMatchResult :=
  { lender_id := "b", lender_name := "B", is_eligible := true, fit_score := 80 }

/-- C4 witness: with two tied lenders, the stable sort keeps their original
order, ranks 1 and 2 are assigned, and the best match is the first eligible
entry of the sorted list. -/
theorem matching_ranking_spec_witness :
    List.Sublist [mW1, mW2] ([mW1, mW2].mergeSort matchSortLe) ∧
    (LenderMatchingService.build_result [mW1, mW2]).«matches».map (·.rank) =
      [some 1, some 2] ∧
    (LenderMatchingService.build_result [mW1, mW2]).best_match =
      (LenderMatchingService.build_result [mW1, mW2]).«matches».find?
        (·.is_eligible) := by
  have h := matching_ranking_spec [mW1, mW2]
  refine ⟨h.2.1 mW1 mW2 (List.Sublist.refl _) rfl rfl, ?_, h.2.2.2⟩
  have h3 := h.2.2.1
  simpa using h3
